import Mathlib

/-!
The lxctools driver: migration phases, local save and restore, lifecycle and
domain information.

A shallow embedding of `src/lxctools/lxctools_driver.c`.  Every driver entry
point becomes a pure function from the world before the call (driver state,
file system, event log) to the value returned and the world after the call.
An entry point that can run into a null or uninitialised pointer gives an
`Outcome`: either that result, or a fault together with the world as it stood
at the fault.
Calls into code outside the driver (typed parameters, host name lookup,
process helpers, the container control facade) take their results from an
environment record `Env`; each such call is appended to the event log so that
"was called" and "was not called" are statements about the log.
-/

namespace Lxctools

/-! ## Data model -/

/-- Error codes passed to `virReportError` by the driver. -/
inductive virErrorNumber
  | VIR_ERR_INTERNAL_ERROR
  | VIR_ERR_INVALID_ARG
  | VIR_ERR_NO_DOMAIN
  | VIR_ERR_OPERATION_INVALID
  | VIR_ERR_OPERATION_FAILED
  | VIR_ERR_OPERATION_DENIED
  | VIR_ERR_OPERATION_ABORTED
deriving DecidableEq

/-- Domain states used with `virDomainObjSetState`. -/
inductive virDomainState
  | VIR_DOMAIN_NOSTATE
  | VIR_DOMAIN_RUNNING
  | VIR_DOMAIN_BLOCKED
  | VIR_DOMAIN_PAUSED
  | VIR_DOMAIN_SHUTDOWN
  | VIR_DOMAIN_SHUTOFF
  | VIR_DOMAIN_CRASHED
  | VIR_DOMAIN_PMSUSPENDED
deriving DecidableEq

/-- State reasons used with `virDomainObjSetState`; `UNKNOWN` stands for every
reason the driver never sets itself. -/
inductive virDomainReason
  | UNKNOWN
  | VIR_DOMAIN_RUNNING_BOOTED
  | VIR_DOMAIN_RUNNING_RESTORED
  | VIR_DOMAIN_SHUTOFF_SHUTDOWN
  | VIR_DOMAIN_SHUTOFF_SAVED
deriving DecidableEq

/-- The part of `virDomainDef` the driver reads and writes (`vm->def`). -/
structure virDomainDef where
  name : String
  uuid : Nat
  id : Int
deriving DecidableEq

/-- The container control facade (`struct lxc_container`), as the answers its
query methods give: `is_running()`, `may_control()`, `init_pid()` and
`get_config_path()`. -/
structure lxc_container where
  is_running : Bool
  may_control : Bool
  init_pid : Int
  config_path : String
deriving DecidableEq

/-- A registry object (`virDomainObj`): `def_` is `vm->def`, `privateData` is
the facade pointer (`none` is a null pointer). -/
structure virDomainObj where
  def_ : virDomainDef
  state : virDomainState
  reason : virDomainReason
  pid : Int
  privateData : Option lxc_container
deriving DecidableEq

/-- The caller's domain handle (`virDomainPtr`). -/
structure virDomain where
  name : String
  uuid : Nat
  id : Int
deriving DecidableEq

/-- The migration session (`driver->md`): the two helper process ids. -/
structure migrate_data where
  criusrv_pid : Int
  copysrv_pid : Int
deriving DecidableEq

/-- The driver state (`struct lxctools_driver`): the registry and the single
session slot `md` (`none` is a null pointer). -/
structure lxctools_driver where
  domains : List virDomainObj
  md : Option migrate_data
deriving DecidableEq

/-- Everything a driver call is logged as doing outside the driver state.
Registry objects are named by their index in the registry. -/
inductive Event
  | error (code : virErrorNumber)
  | lock (obj : Nat)
  | unlock (obj : Nat)
  | allocMd
  | startCopyServer (path : String) (ok : Bool)
  | startCopyProc (path : String) (pid : Int) (uri : Option String) (ok : Bool)
  | waitForMigrationProcs (ok : Bool)
  | checkpoint (obj : Nat) (path : String) (stop : Bool) (ok : Bool)
  | restore (obj : Nat) (path : String) (ok : Bool)
  | stop (obj : Nat) (ok : Bool)
  | mkdir (path : String) (rc : Int)
  | virRun (obj : Nat) (rc : Int)
deriving DecidableEq

/-- The world a driver call runs in: the driver state, the file system as a
list of `(path, isDirectory)` entries, and the log of events so far. -/
structure World where
  driver : lxctools_driver
  fs : List (String × Bool)
  trace : List Event
deriving DecidableEq

/-- How a driver call ends: it returns `a`, or it faults on a pointer it may
not use (a null or uninitialised one), with the world as it stood at that
point: what the call had reported, logged and locked by then. -/
inductive Outcome (α : Type) where
  | ret (a : α)
  | fault (w : World)
deriving DecidableEq

/-- How one named typed parameter is present in the parameter list. -/
inductive ParamGet
  | absent
  | value (s : String)
  | mismatch
deriving DecidableEq

/-- The typed parameter list of a phase call: whether it passes
`virTypedParamsValidate` against `LXCTOOLS_MIGRATION_PARAMETERS`, and its
`VIR_MIGRATE_PARAM_DEST_NAME` and `VIR_MIGRATE_PARAM_URI` entries. -/
structure virTypedParameters where
  valid : Bool
  dest_name : ParamGet
  uri : ParamGet
deriving DecidableEq

/-- Results of the calls that leave the driver: allocation, host name lookup,
path joining, the process helpers of `lxctools_conf.c`, the helper tool probe,
`mkdir(2)`, the definition formatter and the effectful facade methods.

For the local operations: `getContainerNameFromPath`, `virRun` on the
`lxc-start` command line of a container name, the init pid the facade reports
after such a start, the facade's `state()`, `lxcState2virState`, the two call
shapes of `get_config_item` and `get_cgroup_item` (length query with a null
buffer; fetch into a buffer of the given size, giving the return value and the
buffer contents), `VIR_ALLOC_N` for the item buffer of each step of
`lxctoolsDomainGetInfo`, `strtol(s, NULL, 10)`, `getNumOfHostCPUs`,
`convertMemorySize` and `getHostMemory`. -/
structure Env where
  virDomainDefFormat : virDomainDef → Option String
  virGetHostname : Option String
  alloc_uri_out : Bool
  alloc_md : Bool
  concatPaths : String → String → Option String
  startCopyServer : String → Bool × migrate_data
  startCopyProc : String → Int → Option String → Bool × migrate_data
  waitForMigrationProcs : Option migrate_data → Bool
  criuExists : Bool
  mkdir_permitted : String → Bool
  checkpoint : lxc_container → String → Bool → Bool
  restore : lxc_container → String → Option Int
  stop : lxc_container → Bool
  getContainerNameFromPath : String → Option String
  virRun : String → Int
  started_pid : lxc_container → Int
  state : lxc_container → String
  lxcState2virState : String → virDomainState
  config_item_len : lxc_container → String → Int
  config_item_fetch : lxc_container → String → Int → Int × String
  cgroup_item_len : lxc_container → String → Int
  cgroup_item_fetch : lxc_container → String → Int → Int × String
  alloc_item : Nat → Bool
  strtol : String → Int
  getNumOfHostCPUs : Int
  convertMemorySize : String → Int → Nat
  getHostMemory : Nat

/-! ## Framework helpers used by the driver -/

/-- Append one event to the log. -/
def World.log (w : World) (e : Event) : World :=
  { w with trace := w.trace ++ [e] }

/-- The call `virReportError(code, ...)`. -/
def World.report (w : World) (code : virErrorNumber) : World :=
  w.log (Event.error code)

/-- The call `virObjectUnlock(vm)` on registry object `i`. -/
def World.unlock (w : World) (i : Nat) : World :=
  w.log (Event.unlock i)

/-- Store into the session slot `driver->md`. -/
def World.setMd (w : World) (md : Option migrate_data) : World :=
  { w with driver := { w.driver with md := md } }

/-- Overwrite registry object `i` (writes through the `vm` pointer). -/
def World.setObj (w : World) (i : Nat) (vm : virDomainObj) : World :=
  { w with driver := { w.driver with domains := w.driver.domains.set i vm } }

/-- The events a call appended: the log of `w1` after the log of `w0`. -/
def emitted (w0 w1 : World) : List Event :=
  w1.trace.drop w0.trace.length

/-- The macro `virCheckFlags(supported, retval)`: true when `flags` has a bit
outside `supported`, in which case the caller reports `VIR_ERR_INVALID_ARG`
and returns `retval`.  Flags are 32-bit unsigned. -/
def virCheckFlags (supported flags : Nat) : Bool :=
  (flags % 2 ^ 32) &&& ((2 ^ 32 - 1) ^^^ (supported % 2 ^ 32)) != 0

/-- The call `virTypedParamsGetString(params, nparams, name, &out)`: a
negative result on a type mismatch, 0 with `out` untouched when the parameter
is absent, 1 with `out` set when it is present. -/
def virTypedParamsGetString (p : ParamGet) (out : Option String) : Int × Option String :=
  match p with
  | ParamGet.absent => (0, out)
  | ParamGet.value s => (1, some s)
  | ParamGet.mismatch => (-1, out)

/-- First registry object satisfying `p`, with its index, scanning from
index `i`. -/
def findObjFrom (p : virDomainObj → Bool) : List virDomainObj → Nat → Option (Nat × virDomainObj)
  | [], _ => none
  | o :: os, i => if p o then some (i, o) else findObjFrom p os (i + 1)

/-- The call `virDomainObjListFindByName(driver->domains, name)`; a null name
matches no object. -/
def virDomainObjListFindByName (doms : List virDomainObj) (name : Option String) :
    Option (Nat × virDomainObj) :=
  match name with
  | none => none
  | some n => findObjFrom (fun o => o.def_.name == n) doms 0

/-- The call `virDomainObjListFindByUUID(driver->domains, uuid)`. -/
def virDomainObjListFindByUUID (doms : List virDomainObj) (uuid : Nat) :
    Option (Nat × virDomainObj) :=
  findObjFrom (fun o => o.def_.uuid == uuid) doms 0

/-- Modelled from the spec: `virDomainObjIsActive` is declared in the
framework's `domain_conf.h`, not in the driver file.  A registry object counts
as running when its definition carries a live id; the driver writes id `-1`
whenever it marks an object shut off (`lxctoolsDomainSaveFlags`,
`lxctoolsDomainShutdownFlags`). -/
def virDomainObjIsActive (vm : virDomainObj) : Bool :=
  vm.def_.id != -1

/-- The call `waitForMigrationProcs(driver->md)`: the pointer is passed by
value, so the slot itself is not written. -/
def waitForMigrationProcs (env : Env) (w : World) : Bool × World :=
  let ok := env.waitForMigrationProcs w.driver.md
  (ok, w.log (Event.waitForMigrationProcs ok))

/-! ## Migration phases: Finish and Confirm -/

/-- The function `lxctoolsDomainMigrateFinish3Params` (lines 346-404).  The
result is the returned `virDomainPtr` (`none` is NULL).  The variable `dname`
has no initial value (line 359): when `VIR_MIGRATE_PARAM_DEST_NAME` is absent
the typed parameter call leaves it unwritten, and the call faults where the
lookup reads it. -/
def lxctoolsDomainMigrateFinish3Params (env : Env) (w : World)
    (params : virTypedParameters) (flags : Nat) (cancelled : Int) :
    Outcome (Option virDomain × World) :=
  if virCheckFlags 0 flags then Outcome.ret (none, w.report virErrorNumber.VIR_ERR_INVALID_ARG)
  else if !params.valid then Outcome.ret (none, w)
  else
    let r := virTypedParamsGetString params.dest_name none
    if r.1 < 0 then Outcome.ret (none, w)
    else if r.1 = 0 then
      -- dname was not written: the lookup is handed an uninitialised pointer
      Outcome.fault w
    else
      match virDomainObjListFindByName w.driver.domains r.2 with
      | none => Outcome.ret (none, w.report virErrorNumber.VIR_ERR_NO_DOMAIN)
      | some (i, vm) =>
        let w1 := w.log (Event.lock i)
        match vm.privateData with
        | none =>
          Outcome.ret (none, (w1.report virErrorNumber.VIR_ERR_INTERNAL_ERROR).unlock i)
        | some _ =>
          let w2 := if cancelled != 0 then w1.report virErrorNumber.VIR_ERR_OPERATION_FAILED else w1
          let r2 := waitForMigrationProcs env w2
          if !r2.1 then Outcome.ret (none, r2.2.unlock i)
          else Outcome.ret (none, r2.2.unlock i)

/-- The function `lxctoolsDomainMigrateConfirm3Params` (lines 410-464).  The
variable `dname` has no initial value (line 421), as in Finish. -/
def lxctoolsDomainMigrateConfirm3Params (env : Env) (w : World)
    (params : virTypedParameters) (flags : Nat) (cancelled : Int) : Outcome (Int × World) :=
  if virCheckFlags 0 flags then Outcome.ret (-1, w.report virErrorNumber.VIR_ERR_INVALID_ARG)
  else if !params.valid then Outcome.ret (-1, w)
  else
    let r := virTypedParamsGetString params.dest_name none
    if r.1 < 0 then Outcome.ret (-1, w)
    else if r.1 = 0 then
      -- dname was not written: the lookup is handed an uninitialised pointer
      Outcome.fault w
    else
      match virDomainObjListFindByName w.driver.domains r.2 with
      | none => Outcome.ret (-1, w.report virErrorNumber.VIR_ERR_NO_DOMAIN)
      | some (i, vm) =>
        let w1 := w.log (Event.lock i)
        match vm.privateData with
        | none =>
          Outcome.ret (-1, (w1.report virErrorNumber.VIR_ERR_INTERNAL_ERROR).unlock i)
        | some _ =>
          let w2 := if cancelled != 0 then w1.report virErrorNumber.VIR_ERR_OPERATION_FAILED else w1
          let r2 := waitForMigrationProcs env w2
          if !r2.1 then Outcome.ret (-1, r2.2.unlock i)
          else Outcome.ret (0, r2.2.unlock i)

/-! ## Migration phases: Begin, Prepare and Perform -/

/-- The function `lxctoolsDomainMigrateBegin3Params` (lines 78-112).  The
result is the returned XML string (`none` is NULL); the call faults when it
dereferences a null object pointer. -/
def lxctoolsDomainMigrateBegin3Params (env : Env) (w : World) (domain : virDomain)
    (params : virTypedParameters) (flags : Nat) : Outcome (Option String × World) :=
  if virCheckFlags 0 flags then Outcome.ret (none, w.report virErrorNumber.VIR_ERR_INVALID_ARG)
  else if !params.valid then Outcome.ret (none, w)
  else
    match virDomainObjListFindByUUID w.driver.domains domain.uuid with
    | none =>
      -- reports VIR_ERR_NO_DOMAIN and goes on to virDomainObjIsActive(vm) with vm == NULL
      Outcome.fault (w.report virErrorNumber.VIR_ERR_NO_DOMAIN)
    | some (i, vm) =>
      let w1 := w.log (Event.lock i)
      if !virDomainObjIsActive vm then
        Outcome.ret (none, (w1.report virErrorNumber.VIR_ERR_OPERATION_INVALID).unlock i)
      else
        Outcome.ret (env.virDomainDefFormat vm.def_, w1.unlock i)

/-- Modelled from the spec: `virStrcpy(dest, src, destbytes)` lives in the
framework's string utilities, not in the driver file.  The copy is
length-bounded: it fails (NULL) when `src` does not fit in `destbytes` bytes
together with its terminator, and otherwise leaves `src` verbatim in `dest`.
The length of `src` is its `strlen`, the number of bytes of its UTF-8
encoding. -/
def virStrcpy (src : String) (destbytes : Nat) : Option String :=
  if src.utf8ByteSize > destbytes - 1 then none else some src

/-- The macro `STRPREFIX(a, b)`: `a` starts with `b`. -/
def STRPREFIX (a b : String) : Bool :=
  b.data.isPrefixOf a.data

/-- What `lxctoolsDomainMigratePrepare3Params` hands back: the return code,
the string it stored in `*uri_out` (`none` when it stored none), and the world
after the call. -/
structure PrepareResult where
  ret : Int
  uri_out : Option String
  world : World
deriving DecidableEq

/-- Lines 208-231 of `lxctoolsDomainMigratePrepare3Params`: staging path,
session allocation and start of the receiver processes, once `*uri_out` has
been filled with `addr`. -/
def prepareStartServers (env : Env) (w : World) (i : Nat) (cont : lxc_container)
    (addr : String) : PrepareResult :=
  match env.concatPaths cont.config_path "migrate_tmpfs" with
  | none => ⟨-1, some addr, w.unlock i⟩
  | some tmpfs_path =>
    if !env.alloc_md then ⟨-1, some addr, (w.setMd none).unlock i⟩
    else
      let w1 := (w.setMd (some ⟨0, 0⟩)).log Event.allocMd
      let r := env.startCopyServer tmpfs_path
      let w2 := (w1.setMd (some r.2)).log (Event.startCopyServer tmpfs_path r.1)
      if !r.1 then ⟨-1, some addr, (w2.report virErrorNumber.VIR_ERR_OPERATION_FAILED).unlock i⟩
      else ⟨0, some addr, w2.unlock i⟩

/-- The function `lxctoolsDomainMigratePrepare3Params` (lines 119-240). -/
def lxctoolsDomainMigratePrepare3Params (env : Env) (w : World)
    (params : virTypedParameters) (flags : Nat) : PrepareResult :=
  if virCheckFlags 0 flags then ⟨-1, none, w.report virErrorNumber.VIR_ERR_INVALID_ARG⟩
  else if !params.valid then ⟨-1, none, w⟩
  else
    let w0 := w.setMd none
    let rd := virTypedParamsGetString params.dest_name none
    if rd.1 < 0 then ⟨-1, none, w0⟩
    else
      let ru := virTypedParamsGetString params.uri none
      if ru.1 < 0 then ⟨-1, none, w0⟩
      else
        match virDomainObjListFindByName w0.driver.domains rd.2 with
        | none => ⟨-1, none, w0.report virErrorNumber.VIR_ERR_NO_DOMAIN⟩
        | some (i, vm) =>
          let w1 := w0.log (Event.lock i)
          match vm.privateData with
          | none => ⟨-1, none, (w1.report virErrorNumber.VIR_ERR_INTERNAL_ERROR).unlock i⟩
          | some cont =>
            if virDomainObjIsActive vm then
              ⟨-1, none, (w1.report virErrorNumber.VIR_ERR_OPERATION_INVALID).unlock i⟩
            else if !env.alloc_uri_out then ⟨-1, none, w1.unlock i⟩
            else
              -- from here on *uri_out is a 16-byte buffer holding the empty string
              match ru.2 with
              | none =>
                match env.virGetHostname with
                | none => ⟨-1, some "", w1.unlock i⟩
                | some my_hostname =>
                  if STRPREFIX my_hostname "localhost" then
                    ⟨-1, some "", (w1.report virErrorNumber.VIR_ERR_INTERNAL_ERROR).unlock i⟩
                  else
                    match virStrcpy my_hostname 16 with
                    | none => ⟨-1, some "", w1.unlock i⟩
                    | some addr => prepareStartServers env w1 i cont addr
              | some uri_in =>
                match virStrcpy uri_in 16 with
                | none => ⟨-1, some "", w1.unlock i⟩
                | some addr => prepareStartServers env w1 i cont addr

/-- The function `lxctoolsDomainMigratePerform3Params` (lines 247-338); the
call faults when it dereferences a null object pointer. -/
def lxctoolsDomainMigratePerform3Params (env : Env) (w : World) (domain : virDomain)
    (params : virTypedParameters) (flags : Nat) : Outcome (Int × World) :=
  if virCheckFlags 0 flags then Outcome.ret (-1, w.report virErrorNumber.VIR_ERR_INVALID_ARG)
  else if !params.valid then Outcome.ret (-1, w)
  else
    let ru := virTypedParamsGetString params.uri none
    if ru.1 < 0 then Outcome.ret (-1, w)
    else
      match virDomainObjListFindByUUID w.driver.domains domain.uuid with
      | none =>
        -- reports VIR_ERR_NO_DOMAIN and goes on to read vm->privateData with vm == NULL
        Outcome.fault (w.report virErrorNumber.VIR_ERR_NO_DOMAIN)
      | some (i, vm) =>
        let w1 := w.log (Event.lock i)
        match vm.privateData with
        | none => Outcome.ret (-1, (w1.report virErrorNumber.VIR_ERR_INTERNAL_ERROR).unlock i)
        | some cont =>
          if !virDomainObjIsActive vm then
            Outcome.ret (-1, (w1.report virErrorNumber.VIR_ERR_OPERATION_INVALID).unlock i)
          else if !env.alloc_md then Outcome.ret (-1, (w1.setMd none).unlock i)
          else
            let w2 := (w1.setMd (some ⟨0, 0⟩)).log Event.allocMd
            match env.concatPaths cont.config_path "migrate_tmpfs" with
            | none => Outcome.ret (-1, w2.unlock i)
            | some tmpfs_path =>
              let r := env.startCopyProc tmpfs_path cont.init_pid ru.2
              let w3 := (w2.setMd (some r.2)).log
                (Event.startCopyProc tmpfs_path cont.init_pid ru.2 r.1)
              if !r.1 then Outcome.ret (-1, (w3.report virErrorNumber.VIR_ERR_OPERATION_FAILED).unlock i)
              else Outcome.ret (0, w3.unlock i)

/-! ## Local save -/

/-- The flag `VIR_DOMAIN_SAVE_RUNNING` (`1 << 1`). -/
def VIR_DOMAIN_SAVE_RUNNING : Nat := 2

/-- The flag `VIR_DOMAIN_SAVE_PAUSED` (`1 << 2`). -/
def VIR_DOMAIN_SAVE_PAUSED : Nat := 4

/-- The call `virFileExists(path)`. -/
def virFileExists (w : World) (path : String) : Bool :=
  w.fs.any (fun e => e.1 == path)

/-- The call `virFileIsDir(path)`. -/
def virFileIsDir (w : World) (path : String) : Bool :=
  w.fs.any (fun e => e.1 == path && e.2)

/-- The call `mkdir(path, mode)`: `-1` when the path exists already or the
system refuses, else the directory is created and the result is `0`. -/
def mkdir (env : Env) (w : World) (path : String) : Int × World :=
  if virFileExists w path || !env.mkdir_permitted path then
    (-1, w.log (Event.mkdir path (-1)))
  else
    (0, { w with fs := w.fs ++ [(path, true)], trace := w.trace ++ [Event.mkdir path 0] })

/-- The C operator `!` on an `int`. -/
def lnot (x : Int) : Int :=
  if x = 0 then 1 else 0

/-- What `lxctoolsDomainSaveFlags` hands back: the return code, the caller's
domain handle after the call, and the world after the call. -/
structure SaveResult where
  ret : Int
  domain : virDomain
  world : World
deriving DecidableEq

/-- Lines 621-644 of `lxctoolsDomainSaveFlags`: creation of the checkpoint
directory `save_path` and the facade checkpoint call, once every precondition
has passed.  A checkpoint taken with `stop` leaves the facade not running. -/
def saveCheckpoint (env : Env) (w : World) (domain : virDomain) (flags : Nat) (i : Nat)
    (vm : virDomainObj) (cont : lxc_container) (save_path : String) : SaveResult :=
  let m := mkdir env w save_path
  -- the test is written `!mkdir(...) < 0`
  if lnot m.1 < 0 then
    ⟨-1, domain, (m.2.report virErrorNumber.VIR_ERR_OPERATION_FAILED).unlock i⟩
  else if flags &&& VIR_DOMAIN_SAVE_RUNNING != 0 then
    let ok := env.checkpoint cont save_path false
    let w2 := m.2.log (Event.checkpoint i save_path false ok)
    let w3 := if !ok then w2.report virErrorNumber.VIR_ERR_OPERATION_FAILED else w2
    -- the `goto cleanup` is outside the unbraced `if`: it is always taken
    ⟨-1, domain, w3.unlock i⟩
  else
    let ok := env.checkpoint cont save_path true
    let w2 := m.2.log (Event.checkpoint i save_path true ok)
    if !ok then
      ⟨-1, domain, (w2.report virErrorNumber.VIR_ERR_OPERATION_FAILED).unlock i⟩
    else
      let vm1 : virDomainObj :=
        { vm with
          def_ := { vm.def_ with id := -1 },
          state := virDomainState.VIR_DOMAIN_SHUTOFF,
          reason := virDomainReason.VIR_DOMAIN_SHUTOFF_SAVED,
          privateData := some { cont with is_running := false } }
      ⟨0, { domain with id := -1 }, (w2.setObj i vm1).unlock i⟩

/-- The function `lxctoolsDomainSaveFlags` (lines 558-651); the call faults
when it dereferences a null facade pointer. -/
def lxctoolsDomainSaveFlags (env : Env) (w : World) (domain : virDomain) (to_ : String)
    (flags : Nat) : Outcome SaveResult :=
  if virCheckFlags (VIR_DOMAIN_SAVE_RUNNING ||| VIR_DOMAIN_SAVE_PAUSED) flags then
    Outcome.ret ⟨-1, domain, w.report virErrorNumber.VIR_ERR_INVALID_ARG⟩
  else
    match virDomainObjListFindByUUID w.driver.domains domain.uuid with
    | none => Outcome.ret ⟨-1, domain, w.report virErrorNumber.VIR_ERR_NO_DOMAIN⟩
    | some (i, vm) =>
      let w1 := w.log (Event.lock i)
      if !virFileExists w1 to_ then
        Outcome.ret ⟨-1, domain, (w1.report virErrorNumber.VIR_ERR_INVALID_ARG).unlock i⟩
      else if !virFileIsDir w1 to_ then
        Outcome.ret ⟨-1, domain, (w1.report virErrorNumber.VIR_ERR_INVALID_ARG).unlock i⟩
      else
        match vm.privateData with
        | none =>
          -- cont->is_running(cont) with cont == NULL
          Outcome.fault w1
        | some cont =>
          if !cont.is_running then
            Outcome.ret ⟨-1, domain, (w1.report virErrorNumber.VIR_ERR_OPERATION_DENIED).unlock i⟩
          else if !cont.may_control then
            Outcome.ret ⟨-1, domain, (w1.report virErrorNumber.VIR_ERR_OPERATION_DENIED).unlock i⟩
          else if !env.criuExists then
            Outcome.ret ⟨-1, domain, (w1.report virErrorNumber.VIR_ERR_OPERATION_DENIED).unlock i⟩
          else
            match env.concatPaths to_ domain.name with
            | none => Outcome.ret ⟨-1, domain, w1.unlock i⟩
            | some save_path =>
              if virFileExists w1 save_path then
                Outcome.ret ⟨-1, domain, (w1.report virErrorNumber.VIR_ERR_INVALID_ARG).unlock i⟩
              else
                Outcome.ret (saveCheckpoint env w1 domain flags i vm cont save_path)

/-- The function `lxctoolsDomainSave` (lines 653-657). -/
def lxctoolsDomainSave (env : Env) (w : World) (domain : virDomain) (to_ : String) :
    Outcome SaveResult :=
  lxctoolsDomainSaveFlags env w domain to_ 0

/-! ## Local restore -/

/-- The function `lxctoolsDomainRestoreFlags` (lines 470-550).  A successful
facade restore leaves the facade running with the init pid it reports. -/
def lxctoolsDomainRestoreFlags (env : Env) (w : World) (from_ : String) (flags : Nat) :
    Int × World :=
  if virCheckFlags 0 flags then (-1, w.report virErrorNumber.VIR_ERR_INVALID_ARG)
  else
    match env.getContainerNameFromPath from_ with
    | none => (-1, w.report virErrorNumber.VIR_ERR_INVALID_ARG)
    | some cont_name =>
      match virDomainObjListFindByName w.driver.domains (some cont_name) with
      | none => (-1, w.report virErrorNumber.VIR_ERR_NO_DOMAIN)
      | some (i, vm) =>
        let w1 := w.log (Event.lock i)
        match vm.privateData with
        | none => (-1, (w1.report virErrorNumber.VIR_ERR_INTERNAL_ERROR).unlock i)
        | some cont =>
          if !virFileExists w1 from_ then
            (-1, (w1.report virErrorNumber.VIR_ERR_INVALID_ARG).unlock i)
          else if !virFileIsDir w1 from_ then
            (-1, (w1.report virErrorNumber.VIR_ERR_INVALID_ARG).unlock i)
          else if cont.is_running then
            (-1, (w1.report virErrorNumber.VIR_ERR_OPERATION_DENIED).unlock i)
          else if !cont.may_control then
            (-1, (w1.report virErrorNumber.VIR_ERR_OPERATION_DENIED).unlock i)
          else if !env.criuExists then
            (-1, (w1.report virErrorNumber.VIR_ERR_OPERATION_DENIED).unlock i)
          else
            match env.restore cont from_ with
            | none =>
              (-1, ((w1.log (Event.restore i from_ false)).report
                virErrorNumber.VIR_ERR_OPERATION_FAILED).unlock i)
            | some pid =>
              let cont1 : lxc_container := { cont with is_running := true, init_pid := pid }
              let vm1 : virDomainObj :=
                { vm with
                  def_ := { vm.def_ with id := cont1.init_pid },
                  state := virDomainState.VIR_DOMAIN_RUNNING,
                  reason := virDomainReason.VIR_DOMAIN_RUNNING_RESTORED,
                  privateData := some cont1 }
              (0, ((w1.log (Event.restore i from_ true)).setObj i vm1).unlock i)

/-- The function `lxctoolsDomainRestore` (lines 552-556). -/
def lxctoolsDomainRestore (env : Env) (w : World) (from_ : String) : Int × World :=
  lxctoolsDomainRestoreFlags env w from_ 0

/-! ## Shutdown and create -/

/-- What a lifecycle call hands back: the return code, the caller's domain
handle after the call, and the world after the call. -/
structure DomainResult where
  ret : Int
  dom : virDomain
  world : World
deriving DecidableEq

/-- The function `lxctoolsDomainShutdownFlags` (lines 659-697); the call
faults when it dereferences a null facade pointer.  A successful facade
stop leaves the facade not running. -/
def lxctoolsDomainShutdownFlags (env : Env) (w : World) (dom : virDomain) (flags : Nat) :
    Outcome DomainResult :=
  if virCheckFlags 0 flags then Outcome.ret ⟨-1, dom, w.report virErrorNumber.VIR_ERR_INVALID_ARG⟩
  else
    match virDomainObjListFindByName w.driver.domains (some dom.name) with
    | none => Outcome.ret ⟨-1, dom, w.report virErrorNumber.VIR_ERR_NO_DOMAIN⟩
    | some (i, vm) =>
      let w1 := w.log (Event.lock i)
      match vm.privateData with
      | none =>
        -- cont->is_running(cont) with cont == NULL
        Outcome.fault w1
      | some cont =>
        if !cont.is_running then
          Outcome.ret ⟨-1, dom, (w1.report virErrorNumber.VIR_ERR_OPERATION_DENIED).unlock i⟩
        else
          let ok := env.stop cont
          let w2 := w1.log (Event.stop i ok)
          if !ok then Outcome.ret ⟨-1, dom, w2.unlock i⟩
          else
            let vm1 : virDomainObj :=
              { vm with
                def_ := { vm.def_ with id := -1 },
                state := virDomainState.VIR_DOMAIN_SHUTOFF,
                reason := virDomainReason.VIR_DOMAIN_SHUTOFF_SHUTDOWN,
                privateData := some { cont with is_running := false } }
            Outcome.ret ⟨0, { dom with id := -1 }, (w2.setObj i vm1).unlock i⟩

/-- The function `lxctoolsDomainDestroy` (lines 699-703). -/
def lxctoolsDomainDestroy (env : Env) (w : World) (dom : virDomain) : Outcome DomainResult :=
  lxctoolsDomainShutdownFlags env w dom 0

/-- The function `lxctoolsDomainDestroyFlags` (lines 705-709). -/
def lxctoolsDomainDestroyFlags (env : Env) (w : World) (dom : virDomain) (flags : Nat) :
    Outcome DomainResult :=
  lxctoolsDomainShutdownFlags env w dom flags

/-- The function `lxctoolsDomainShutdown` (lines 711-715). -/
def lxctoolsDomainShutdown (env : Env) (w : World) (dom : virDomain) : Outcome DomainResult :=
  lxctoolsDomainShutdownFlags env w dom 0

/-- The function `lxctoolsDomainCreateWithFlags` (lines 717-769); the call
faults when it dereferences a null facade pointer.  After the start
command the facade runs exactly when it reports a non-negative init pid. -/
def lxctoolsDomainCreateWithFlags (env : Env) (w : World) (dom : virDomain) (flags : Nat) :
    Outcome DomainResult :=
  if virCheckFlags 0 flags then Outcome.ret ⟨-1, dom, w.report virErrorNumber.VIR_ERR_INVALID_ARG⟩
  else
    match virDomainObjListFindByName w.driver.domains (some dom.name) with
    | none => Outcome.ret ⟨-1, dom, w.report virErrorNumber.VIR_ERR_NO_DOMAIN⟩
    | some (i, vm) =>
      let w1 := w.log (Event.lock i)
      match vm.privateData with
      | none =>
        -- cont->is_running(cont) with cont == NULL
        Outcome.fault w1
      | some cont =>
        if cont.is_running then
          Outcome.ret ⟨-1, dom, (w1.report virErrorNumber.VIR_ERR_OPERATION_DENIED).unlock i⟩
        else
          let rc := env.virRun dom.name
          let w2 := w1.log (Event.virRun i rc)
          if rc < 0 then
            Outcome.ret ⟨-1, dom, (w2.report virErrorNumber.VIR_ERR_OPERATION_ABORTED).unlock i⟩
          else
            let pid := env.started_pid cont
            let cont1 : lxc_container :=
              { cont with is_running := decide (0 ≤ pid), init_pid := pid }
            -- `vm->pid` is assigned inside the test
            if pid < 0 then
              Outcome.ret ⟨-1, dom,
                (w2.setObj i { vm with pid := pid, privateData := some cont1 }).unlock i⟩
            else
              let vm1 : virDomainObj :=
                { vm with
                  pid := pid,
                  def_ := { vm.def_ with id := pid },
                  state := virDomainState.VIR_DOMAIN_RUNNING,
                  reason := virDomainReason.VIR_DOMAIN_RUNNING_BOOTED,
                  privateData := some cont1 }
              Outcome.ret ⟨0, { dom with id := pid }, (w2.setObj i vm1).unlock i⟩

/-- The function `lxctoolsDomainCreate` (lines 771-775). -/
def lxctoolsDomainCreate (env : Env) (w : World) (dom : virDomain) : Outcome DomainResult :=
  lxctoolsDomainCreateWithFlags env w dom 0

/-! ## Domain information -/

/-- The caller's `virDomainInfo`: `state` is the state code, `nrVirtCpu` an
unsigned 16-bit count, `maxMem`, `memory` and `cpuTime` unsigned 64-bit. -/
structure virDomainInfo where
  state : virDomainState
  maxMem : Nat
  memory : Nat
  nrVirtCpu : Nat
  cpuTime : Nat
deriving DecidableEq

/-- Conversion of a signed value to `unsigned short`. -/
def toUShort (x : Int) : Nat :=
  (x % 2 ^ 16).toNat

/-- Conversion of a signed value to a 64-bit unsigned integer. -/
def toULong (x : Int) : Nat :=
  (x % 2 ^ 64).toNat

/-- Lines 800-819 of `lxctoolsDomainGetInfo`, the CPU step: `false` is
`goto cleanup`, and the second component is `*info` afterwards. -/
def getInfoCpu (env : Env) (cont : lxc_container) (info : virDomainInfo) :
    Bool × virDomainInfo :=
  let len := env.config_item_len cont "lxc.cgroup.cpuset.cpus"
  if len < 0 then (false, info)
  else if !env.alloc_item 0 then (false, info)
  else
    let f := env.config_item_fetch cont "lxc.cgroup.cpuset.cpus" len
    if len > 0 && f.1 != len then (false, info)
    else if len > 0 && toUShort (env.strtol f.2) != 0 then
      -- the parsed count is stored and the test sends it to `cleanup`
      (false, { info with nrVirtCpu := toUShort (env.strtol f.2) })
    else if toUShort env.getNumOfHostCPUs == 0 then
      (false, { info with nrVirtCpu := 0 })
    else (true, { info with nrVirtCpu := toUShort env.getNumOfHostCPUs })

/-- Lines 821-840 of `lxctoolsDomainGetInfo`, the memory limit step. -/
def getInfoMaxMem (env : Env) (cont : lxc_container) (info : virDomainInfo) :
    Bool × virDomainInfo :=
  let len := env.config_item_len cont "lxc.cgroup.memory.limit_in_bytes"
  if len < 0 then (false, info)
  else if !env.alloc_item 1 then (false, info)
  else
    let f := env.config_item_fetch cont "lxc.cgroup.memory.limit_in_bytes" len
    if len > 0 && f.1 != len then (false, info)
    else if len > 0 then (true, { info with maxMem := env.convertMemorySize f.2 len })
    else if env.getHostMemory == 0 then (false, { info with maxMem := 0 })
    else (true, { info with maxMem := env.getHostMemory })

/-- Lines 850-891 of `lxctoolsDomainGetInfo`, memory usage and CPU time of a
running container. -/
def getInfoUsage (env : Env) (cont : lxc_container) (info : virDomainInfo) :
    Bool × virDomainInfo :=
  let len := env.cgroup_item_len cont "memory.usage_in_bytes"
  if len < 0 then (false, info)
  else if !env.alloc_item 2 then (false, info)
  else
    let f := env.cgroup_item_fetch cont "memory.usage_in_bytes" len
    if len > 0 && f.1 > len then (false, info)
    else
      let info1 : virDomainInfo :=
        { info with memory := if len > 0 then toULong (env.strtol f.2 >>> 10) else 0 }
      let len2 := env.cgroup_item_len cont "cpuacct.usage"
      if len2 < 0 then (false, info1)
      else if !env.alloc_item 3 then (false, info1)
      else
        let g := env.cgroup_item_fetch cont "cpuacct.usage" len2
        if len2 > 0 && g.1 > len2 then (false, info1)
        else (true, { info1 with cpuTime := if len2 > 0 then toULong (env.strtol g.2) else 0 })

/-- What `lxctoolsDomainGetInfo` hands back: the return code, `*info` after
the call, and the world after the call. -/
structure InfoResult where
  ret : Int
  info : virDomainInfo
  world : World
deriving DecidableEq

/-- The function `lxctoolsDomainGetInfo` (lines 777-898); the call faults
when it dereferences a null facade pointer. -/
def lxctoolsDomainGetInfo (env : Env) (w : World) (dom : virDomain) (info : virDomainInfo) :
    Outcome InfoResult :=
  match virDomainObjListFindByName w.driver.domains (some dom.name) with
  | none => Outcome.ret ⟨-1, info, w.report virErrorNumber.VIR_ERR_NO_DOMAIN⟩
  | some (i, vm) =>
    let w1 := w.log (Event.lock i)
    match vm.privateData with
    | none =>
      -- cont->state(cont) with cont == NULL
      Outcome.fault w1
    | some cont =>
      let info1 : virDomainInfo := { info with state := env.lxcState2virState (env.state cont) }
      let c := getInfoCpu env cont info1
      if !c.1 then Outcome.ret ⟨-1, c.2, w1.unlock i⟩
      else
        let m := getInfoMaxMem env cont c.2
        if !m.1 then Outcome.ret ⟨-1, m.2, w1.unlock i⟩
        else if !cont.is_running then
          Outcome.ret ⟨0, { m.2 with memory := 0, cpuTime := 0 }, w1.unlock i⟩
        else
          let u := getInfoUsage env cont m.2
          if !u.1 then Outcome.ret ⟨-1, u.2, w1.unlock i⟩
          else Outcome.ret ⟨0, u.2, w1.unlock i⟩

/-! ## Concrete scenario: container "web1" -/

/-- The facade of a running container "web1". -/
def web1Cont : lxc_container :=
  ⟨true, true, 4242, "/var/lib/lxc/web1"⟩

/-- Registry object of the running source container "web1". -/
def web1Running : virDomainObj :=
  ⟨⟨"web1", 1, 4242⟩, virDomainState.VIR_DOMAIN_RUNNING,
    virDomainReason.VIR_DOMAIN_RUNNING_BOOTED, 4242, some web1Cont⟩

/-- Registry object of the defined, not running destination container "web1". -/
def web1Shutoff : virDomainObj :=
  ⟨⟨"web1", 1, -1⟩, virDomainState.VIR_DOMAIN_SHUTOFF,
    virDomainReason.VIR_DOMAIN_SHUTOFF_SHUTDOWN, 0,
    some ⟨false, true, -1, "/var/lib/lxc/web1"⟩⟩

/-- A running registry object whose facade pointer is null. -/
def web1NoFacade : virDomainObj :=
  ⟨⟨"web1", 1, 4242⟩, virDomainState.VIR_DOMAIN_RUNNING,
    virDomainReason.VIR_DOMAIN_RUNNING_BOOTED, 4242, none⟩

/-- Source host in mid-migration: "web1" running, a session in the slot, and
the directory `/backups` present. -/
def srcWorld : World :=
  ⟨⟨[web1Running], some ⟨301, 302⟩⟩, [("/backups", true)], []⟩

/-- Destination host in mid-migration: "web1" defined but not running, a
session in the slot. -/
def dstWorld : World :=
  ⟨⟨[web1Shutoff], some ⟨401, 402⟩⟩, [], []⟩

/-- Destination host before Prepare: "web1" defined but not running, the
session slot empty. -/
def dstIdle : World :=
  ⟨⟨[web1Shutoff], none⟩, [], []⟩

/-- Source host before Perform: "web1" running, the session slot empty. -/
def srcIdle : World :=
  ⟨⟨[web1Running], none⟩, [("/backups", true)], []⟩

/-- A host whose registry holds a running "web1" with a null facade pointer. -/
def brokenWorld : World :=
  ⟨⟨[web1NoFacade], none⟩, [], []⟩

/-- An environment in which every outside call succeeds; the local host is
"db-7.internal", every checkpoint path names "web1", and the only
configuration item set is `lxc.cgroup.cpuset.cpus`, with value "2". -/
def envOk : Env where
  virDomainDefFormat := fun d => some ("<domain>" ++ d.name ++ "</domain>")
  virGetHostname := some "db-7.internal"
  alloc_uri_out := true
  alloc_md := true
  concatPaths := fun a b => some (a ++ "/" ++ b)
  startCopyServer := fun _ => (true, ⟨401, 402⟩)
  startCopyProc := fun _ _ _ => (true, ⟨301, 302⟩)
  waitForMigrationProcs := fun _ => true
  criuExists := true
  mkdir_permitted := fun _ => true
  checkpoint := fun _ _ _ => true
  restore := fun _ _ => some 5151
  stop := fun _ => true
  getContainerNameFromPath := fun _ => some "web1"
  virRun := fun _ => 0
  started_pid := fun _ => 6161
  state := fun c => if c.is_running then "RUNNING" else "STOPPED"
  lxcState2virState := fun st =>
    if st == "RUNNING" then virDomainState.VIR_DOMAIN_RUNNING
    else virDomainState.VIR_DOMAIN_SHUTOFF
  config_item_len := fun _ key => if key == "lxc.cgroup.cpuset.cpus" then 1 else 0
  config_item_fetch := fun _ key _ =>
    if key == "lxc.cgroup.cpuset.cpus" then (1, "2") else (0, "")
  cgroup_item_len := fun _ _ => 0
  cgroup_item_fetch := fun _ _ _ => (0, "")
  alloc_item := fun _ => true
  strtol := fun str => if str == "2" then 2 else 0
  getNumOfHostCPUs := 8
  convertMemorySize := fun _ _ => 0
  getHostMemory := 16384

/-- As `envOk`, but the helper processes fail to start. -/
def envNoStart : Env :=
  { envOk with
    startCopyServer := fun _ => (false, ⟨0, 0⟩),
    startCopyProc := fun _ _ _ => (false, ⟨0, 0⟩) }

/-- As `envOk`, but the local host name is the 25-character
"db-7.internal.example.com". -/
def envLongHost : Env :=
  { envOk with virGetHostname := some "db-7.internal.example.com" }

/-- Phase parameters naming "web1" with no explicit URI. -/
def paramsWeb1 : virTypedParameters :=
  ⟨true, ParamGet.value "web1", ParamGet.absent⟩

/-- Phase parameters naming "web1" with the explicit URI "db-7.internal". -/
def paramsWeb1Uri : virTypedParameters :=
  ⟨true, ParamGet.value "web1", ParamGet.value "db-7.internal"⟩

/-- The caller's handle on "web1". -/
def web1Handle : virDomain :=
  ⟨"web1", 1, 4242⟩

/-- Phase parameters naming "web1" with the explicit URI "localhost". -/
def paramsLocalUri : virTypedParameters :=
  ⟨true, ParamGet.value "web1", ParamGet.value "localhost"⟩

/-- A host whose registry holds a running "web1" with a facade. -/
def runningWorld : World :=
  ⟨⟨[web1Running], none⟩, [], []⟩

/-- A host with no container in its registry. -/
def emptyWorld : World :=
  ⟨⟨[], none⟩, [], []⟩

/-- As `envOk`, but the system refuses to create directories. -/
def envNoMkdir : Env :=
  { envOk with mkdir_permitted := fun _ => false }

/-- As `envOk`, but the helper tool is not on PATH. -/
def envNoCriu : Env :=
  { envOk with criuExists := false }

/-- A caller's `virDomainInfo` before the call. -/
def info0 : virDomainInfo :=
  ⟨virDomainState.VIR_DOMAIN_NOSTATE, 0, 0, 0, 0⟩

/-- A host whose registry holds "web1" with a null facade pointer, and on
which the directory `/backups` is present. -/
def brokenBackups : World :=
  ⟨⟨[web1NoFacade], none⟩, [("/backups", true)], []⟩

/-- Whether an event is the acquisition or the release of an object lock. -/
def Event.isLock : Event → Bool
  | Event.lock _ => true
  | Event.unlock _ => true
  | _ => false

/-- The lock traffic of a list of events, in order. -/
def lockEvents (evs : List Event) : List Event :=
  evs.filter Event.isLock

/-- A host on which "web1" is defined but not running and the checkpoint
directory `/backups/web1` is present. -/
def restoreWorld : World :=
  ⟨⟨[web1Shutoff], none⟩, [("/backups", true), ("/backups/web1", true)], []⟩

/-- Registry object of "web1" after a successful save with stop. -/
def web1Saved : virDomainObj :=
  ⟨⟨"web1", 1, -1⟩, virDomainState.VIR_DOMAIN_SHUTOFF,
    virDomainReason.VIR_DOMAIN_SHUTOFF_SAVED, 4242,
    some ⟨false, true, 4242, "/var/lib/lxc/web1"⟩⟩

/-- The caller's handle on "web1" after a successful save with stop. -/
def savedHandle : virDomain :=
  ⟨"web1", 1, -1⟩

/-- The source host after `srcWorld` saved "web1" to `/backups` with stop. -/
def savedWorld : World :=
  ⟨⟨[web1Saved], some ⟨301, 302⟩⟩, [("/backups", true), ("/backups/web1", true)],
    [Event.lock 0, Event.mkdir "/backups/web1" 0,
     Event.checkpoint 0 "/backups/web1" true true, Event.unlock 0]⟩

/-- A valid phase parameter list that carries neither a destination name nor
a URI. -/
def paramsNoName : virTypedParameters :=
  ⟨true, ParamGet.absent, ParamGet.absent⟩

/-- As `envOk`, but no staging path can be computed. -/
def envNoPath : Env :=
  { envOk with concatPaths := fun _ _ => none }

/-- As `envOk`, but the facade checkpoint fails. -/
def envNoCheckpoint : Env :=
  { envOk with checkpoint := fun _ _ _ => false }

/-- The source host after `srcWorld` tried to save "web1" to `/backups` with
stop and the facade checkpoint failed: the checkpoint directory is there and
"web1" is still running. -/
def failedSaveWorld : World :=
  ⟨srcWorld.driver, [("/backups", true), ("/backups/web1", true)],
    [Event.lock 0, Event.mkdir "/backups/web1" 0,
     Event.checkpoint 0 "/backups/web1" true false,
     Event.error virErrorNumber.VIR_ERR_OPERATION_FAILED, Event.unlock 0]⟩

/-- As `envOk`, but the local host name is "bücher-übung.de": 15 characters,
17 bytes in UTF-8. -/
def envUmlautHost : Env :=
  { envOk with virGetHostname := some "bücher-übung.de" }

/-! ## Bookkeeping lemmas -/

@[simp] theorem World.log_trace (w : World) (e : Event) :
    (w.log e).trace = w.trace ++ [e] := rfl

@[simp] theorem World.log_driver (w : World) (e : Event) :
    (w.log e).driver = w.driver := rfl

@[simp] theorem World.log_fs (w : World) (e : Event) :
    (w.log e).fs = w.fs := rfl

@[simp] theorem World.report_trace (w : World) (c : virErrorNumber) :
    (w.report c).trace = w.trace ++ [Event.error c] := rfl

@[simp] theorem World.report_driver (w : World) (c : virErrorNumber) :
    (w.report c).driver = w.driver := rfl

@[simp] theorem World.report_fs (w : World) (c : virErrorNumber) :
    (w.report c).fs = w.fs := rfl

@[simp] theorem World.unlock_trace (w : World) (i : Nat) :
    (w.unlock i).trace = w.trace ++ [Event.unlock i] := rfl

@[simp] theorem World.unlock_driver (w : World) (i : Nat) :
    (w.unlock i).driver = w.driver := rfl

@[simp] theorem World.unlock_fs (w : World) (i : Nat) :
    (w.unlock i).fs = w.fs := rfl

@[simp] theorem World.setMd_trace (w : World) (m : Option migrate_data) :
    (w.setMd m).trace = w.trace := rfl

@[simp] theorem World.setMd_fs (w : World) (m : Option migrate_data) :
    (w.setMd m).fs = w.fs := rfl

@[simp] theorem World.setMd_md (w : World) (m : Option migrate_data) :
    (w.setMd m).driver.md = m := rfl

@[simp] theorem World.setMd_domains (w : World) (m : Option migrate_data) :
    (w.setMd m).driver.domains = w.driver.domains := rfl

@[simp] theorem World.setObj_trace (w : World) (i : Nat) (v : virDomainObj) :
    (w.setObj i v).trace = w.trace := rfl

@[simp] theorem World.setObj_fs (w : World) (i : Nat) (v : virDomainObj) :
    (w.setObj i v).fs = w.fs := rfl

@[simp] theorem World.setObj_md (w : World) (i : Nat) (v : virDomainObj) :
    (w.setObj i v).driver.md = w.driver.md := rfl

@[simp] theorem World.setObj_domains (w : World) (i : Nat) (v : virDomainObj) :
    (w.setObj i v).driver.domains = w.driver.domains.set i v := rfl

@[simp] theorem waitForMigrationProcs_fst (env : Env) (w : World) :
    (waitForMigrationProcs env w).1 = env.waitForMigrationProcs w.driver.md := rfl

@[simp] theorem waitForMigrationProcs_snd (env : Env) (w : World) :
    (waitForMigrationProcs env w).2
      = w.log (Event.waitForMigrationProcs (env.waitForMigrationProcs w.driver.md)) := rfl

@[simp] theorem virTypedParamsGetString_absent (out : Option String) :
    virTypedParamsGetString ParamGet.absent out = (0, out) := rfl

@[simp] theorem virTypedParamsGetString_value (s : String) (out : Option String) :
    virTypedParamsGetString (ParamGet.value s) out = (1, some s) := rfl

@[simp] theorem virTypedParamsGetString_mismatch (out : Option String) :
    virTypedParamsGetString ParamGet.mismatch out = (-1, out) := rfl

@[simp] theorem virCheckFlags_zero : virCheckFlags 0 0 = false := by decide

/-- Every character takes at least one byte, so a string has no more
characters than bytes. -/
theorem length_le_utf8ByteSize (s : String) : s.length ≤ s.utf8ByteSize := by
  cases s with
  | mk cs =>
    show cs.length ≤ String.utf8ByteSize.go cs
    induction cs with
    | nil => simp [String.utf8ByteSize.go]
    | cons c cs ih =>
      simp only [String.utf8ByteSize.go, List.length_cons]
      have := Char.utf8Size_pos c
      omega

/-- A successful bounded copy returns the source verbatim, and the source
fits the buffer. -/
theorem virStrcpy_some (s a : String) (n : Nat) (h : virStrcpy s n = some a) :
    a = s ∧ s.utf8ByteSize ≤ n - 1 := by
  unfold virStrcpy at h
  split at h
  · simp at h
  · simp only [Option.some.injEq] at h
    exact ⟨h.symm, by omega⟩

/-- A source that fits the buffer is copied verbatim. -/
theorem virStrcpy_fits (s : String) (n : Nat) (h : s.utf8ByteSize ≤ n - 1) :
    virStrcpy s n = some s := by
  unfold virStrcpy
  simp
  omega

/-- A source longer than the buffer allows is refused. -/
theorem virStrcpy_long (s : String) (n : Nat) (h : n - 1 < s.utf8ByteSize) :
    virStrcpy s n = none := by
  unfold virStrcpy
  simp [h]

@[simp] theorem prepareStartServers_uri_out (env : Env) (w : World) (i : Nat)
    (cont : lxc_container) (addr : String) :
    (prepareStartServers env w i cont addr).uri_out = some addr := by
  unfold prepareStartServers
  dsimp only
  repeat' split
  all_goals rfl

/-- An object returned by the registry scan satisfies the predicate and sits
in the scanned list at the reported position. -/
theorem findObjFrom_some (p : virDomainObj → Bool) (doms : List virDomainObj) (k i : Nat)
    (vm : virDomainObj) (h : findObjFrom p doms k = some (i, vm)) :
    p vm = true ∧ k ≤ i ∧ doms[i - k]? = some vm := by
  induction doms generalizing k with
  | nil => simp [findObjFrom] at h
  | cons o os ih =>
    unfold findObjFrom at h
    split at h
    · simp only [Option.some.injEq, Prod.mk.injEq] at h
      obtain ⟨rfl, rfl⟩ := h
      simp_all
    · obtain ⟨hp, hk, hget⟩ := ih (k + 1) h
      refine ⟨hp, by omega, ?_⟩
      have : i - k = (i - (k + 1)) + 1 := by omega
      rw [this]
      simpa using hget

/-- A container found by name is a registry object carrying that name. -/
theorem virDomainObjListFindByName_some (doms : List virDomainObj) (n : String) (i : Nat)
    (vm : virDomainObj) (h : virDomainObjListFindByName doms (some n) = some (i, vm)) :
    vm.def_.name = n ∧ doms[i]? = some vm := by
  have h1 := findObjFrom_some _ doms 0 i vm h
  simpa using And.intro h1.1 h1.2.2

/-- A container found by UUID is a registry object carrying that UUID. -/
theorem virDomainObjListFindByUUID_some (doms : List virDomainObj) (u : Nat) (i : Nat)
    (vm : virDomainObj) (h : virDomainObjListFindByUUID doms u = some (i, vm)) :
    vm.def_.uuid = u ∧ doms[i]? = some vm := by
  have h1 := findObjFrom_some _ doms 0 i vm h
  simpa using And.intro h1.1 h1.2.2

/-! ## Confirm and Finish -/

/-- For a container found by name with a facade and flags 0, Confirm returns,
and its result is decided by the supervisor wait alone, whatever `cancelled`
is. -/
theorem confirm_success_iff_wait (env : Env) (w : World) (params : virTypedParameters)
    (cancelled : Int) (dname : String) (i : Nat) (vm : virDomainObj) (cont : lxc_container)
    (hvalid : params.valid = true)
    (hname : params.dest_name = ParamGet.value dname)
    (hfind : virDomainObjListFindByName w.driver.domains (some dname) = some (i, vm))
    (hcont : vm.privateData = some cont) :
    ∃ ret w1, lxctoolsDomainMigrateConfirm3Params env w params 0 cancelled
        = Outcome.ret (ret, w1) ∧
      (ret = 0 ↔ env.waitForMigrationProcs w.driver.md = true) := by
  unfold lxctoolsDomainMigrateConfirm3Params
  by_cases hc : cancelled = 0 <;> cases hw : env.waitForMigrationProcs w.driver.md <;>
    simp [hvalid, hname, hfind, hcont, hw, hc]

/-- C1 (code evaluated at the failing input): Confirm for "web1", found by
name with a facade, flags 0 and `cancelled` true, while the supervisor wait
reports success: the error `VIR_ERR_OPERATION_FAILED` is reported, the wait is
still performed, and the call returns 0 (success).  The source container is
not stopped. -/
theorem confirm_cancelled_returns_success :
    lxctoolsDomainMigrateConfirm3Params envOk srcWorld paramsWeb1 0 1
      = Outcome.ret (0, ⟨srcWorld.driver, srcWorld.fs,
          [Event.lock 0, Event.error virErrorNumber.VIR_ERR_OPERATION_FAILED,
           Event.waitForMigrationProcs true, Event.unlock 0]⟩) := by
  decide

/-- C2 (code evaluated at the failing input): Finish for "web1", found by
name with a facade, flags 0, `cancelled` false and a successful supervisor
wait: the call returns NULL, the facade's restore is not invoked, and the
container is left not running with its id unchanged. -/
theorem finish_after_successful_wait_returns_null :
    lxctoolsDomainMigrateFinish3Params envOk dstWorld paramsWeb1 0 0
      = Outcome.ret (none, ⟨dstWorld.driver, dstWorld.fs,
          [Event.lock 0, Event.waitForMigrationProcs true, Event.unlock 0]⟩) := by
  decide

/-- Whenever Finish returns, whatever `cancelled` is, it returns NULL, it has
appended no restore event to the log and it has left the registry (hence the
destination container's state and id) exactly as it was; and it does return
on every input whose parameter list carries `VIR_MIGRATE_PARAM_DEST_NAME`. -/
theorem finish_returns_null_without_restore (env : Env) (w : World)
    (params : virTypedParameters) (flags : Nat) (cancelled : Int) :
    (∀ r, lxctoolsDomainMigrateFinish3Params env w params flags cancelled = Outcome.ret r →
      r.1 = none ∧ (∀ i p ok, Event.restore i p ok ∉ emitted w r.2) ∧
      r.2.driver.domains = w.driver.domains) ∧
    (params.dest_name ≠ ParamGet.absent →
      ∃ r, lxctoolsDomainMigrateFinish3Params env w params flags cancelled = Outcome.ret r) := by
  constructor
  · intro r
    unfold lxctoolsDomainMigrateFinish3Params
    dsimp only
    repeat' split
    all_goals simp only [Outcome.ret.injEq, reduceCtorEq, false_implies]
    all_goals
      rintro rfl
      simp [emitted]
  · intro hd
    unfold lxctoolsDomainMigrateFinish3Params
    cases hp : params.dest_name with
    | absent => exact absurd hp hd
    | mismatch =>
      simp only [virTypedParamsGetString_mismatch]
      repeat' split
      all_goals first
        | exact ⟨_, rfl⟩
        | (exfalso; omega)
    | value s =>
      simp only [virTypedParamsGetString_value]
      repeat' split
      all_goals first
        | exact ⟨_, rfl⟩
        | (exfalso; omega)

/-- With flags 0 and a valid parameter list that does not carry
`VIR_MIGRATE_PARAM_DEST_NAME`, Finish and Confirm fault at the lookup, which
reads the unwritten `dname`, before anything is reported or locked. -/
theorem finish_confirm_without_dest_name_fault (env : Env) (w : World)
    (params : virTypedParameters) (cancelled : Int)
    (hvalid : params.valid = true) (hname : params.dest_name = ParamGet.absent) :
    lxctoolsDomainMigrateFinish3Params env w params 0 cancelled = Outcome.fault w ∧
    lxctoolsDomainMigrateConfirm3Params env w params 0 cancelled = Outcome.fault w := by
  unfold lxctoolsDomainMigrateFinish3Params lxctoolsDomainMigrateConfirm3Params
  simp [hvalid, hname]

/-- C3 (code evaluated at the failing input): Finish on the destination host
with flags 0, `cancelled` true and a valid parameter list that carries no
`VIR_MIGRATE_PARAM_DEST_NAME`.  The variable `dname` is never written, and
the call does not report failure: it faults at the lookup that reads `dname`,
with nothing reported. -/
theorem finish_cancelled_without_dest_name_faults :
    paramsNoName.valid = true ∧
    paramsNoName.dest_name = ParamGet.absent ∧
    lxctoolsDomainMigrateFinish3Params envOk dstWorld paramsNoName 0 1
      = Outcome.fault dstWorld := by
  decide

/-! ## Save -/

/-- With `VIR_DOMAIN_SAVE_RUNNING` set, the checkpoint step of Save never
yields 0. -/
theorem saveCheckpoint_running_ret (env : Env) (w : World) (domain : virDomain) (flags : Nat)
    (i : Nat) (vm : virDomainObj) (cont : lxc_container) (save_path : String)
    (hrun : (flags &&& VIR_DOMAIN_SAVE_RUNNING != 0) = true) :
    (saveCheckpoint env w domain flags i vm cont save_path).ret = -1 := by
  unfold saveCheckpoint
  simp only [hrun]
  split <;> rfl

/-- With `VIR_DOMAIN_SAVE_RUNNING` set, Save returns -1 whenever it returns. -/
theorem saveFlags_running_never_succeeds (env : Env) (w : World) (domain : virDomain)
    (to_ : String) (flags : Nat)
    (hrun : (flags &&& VIR_DOMAIN_SAVE_RUNNING != 0) = true) :
    ∀ r, lxctoolsDomainSaveFlags env w domain to_ flags = Outcome.ret r → r.ret = -1 := by
  unfold lxctoolsDomainSaveFlags
  dsimp only
  intro r
  repeat' split
  all_goals simp only [Outcome.ret.injEq, reduceCtorEq, false_implies]
  all_goals
    rintro rfl
    first
      | rfl
      | exact saveCheckpoint_running_ret _ _ _ _ _ _ _ _ hrun

/-- C4 (code evaluated at the failing input): Save of the running,
controllable "web1" to the existing directory `/backups` with
`VIR_DOMAIN_SAVE_RUNNING`, helper tool present, `/backups/web1` absent and a
successful facade checkpoint: the directory is created, the checkpoint is
taken without stopping, the container object is unchanged, and the call
returns -1. -/
theorem save_running_returns_failure :
    lxctoolsDomainSaveFlags envOk srcWorld web1Handle "/backups" VIR_DOMAIN_SAVE_RUNNING
      = Outcome.ret ⟨-1, web1Handle,
          ⟨srcWorld.driver, [("/backups", true), ("/backups/web1", true)],
           [Event.lock 0, Event.mkdir "/backups/web1" 0,
            Event.checkpoint 0 "/backups/web1" false true, Event.unlock 0]⟩⟩ := by
  decide

/-! ## Begin -/

/-- C5: Begin on a container found in the registry, with flags 0 and valid
parameters.  If the container is not running the call returns NULL and
reports `VIR_ERR_OPERATION_INVALID` (InvalidState); whenever it returns a
definition blob, the container is running and the blob is the serialized
definition of that container. -/
theorem begin_requires_running (env : Env) (w : World) (domain : virDomain)
    (params : virTypedParameters) (i : Nat) (vm : virDomainObj)
    (hvalid : params.valid = true)
    (hfind : virDomainObjListFindByUUID w.driver.domains domain.uuid = some (i, vm)) :
    (virDomainObjIsActive vm = false →
      ∃ w1, lxctoolsDomainMigrateBegin3Params env w domain params 0 = Outcome.ret (none, w1) ∧
        Event.error virErrorNumber.VIR_ERR_OPERATION_INVALID ∈ emitted w w1) ∧
    (∀ xml w1, lxctoolsDomainMigrateBegin3Params env w domain params 0
        = Outcome.ret (some xml, w1) →
      virDomainObjIsActive vm = true ∧ env.virDomainDefFormat vm.def_ = some xml) := by
  have hflags : virCheckFlags 0 0 = false := by decide
  unfold lxctoolsDomainMigrateBegin3Params
  simp only [hflags, hvalid, hfind]
  constructor
  · intro hna
    simp [hna, emitted]
  · intro xml w1
    cases hact : virDomainObjIsActive vm <;> simp
    intro hx _
    exact hx

/-- C5 at a concrete input: Begin on the not running "web1" returns NULL
and reports `VIR_ERR_OPERATION_INVALID`. -/
theorem begin_requires_running_witness :
    ∃ w1, lxctoolsDomainMigrateBegin3Params envOk dstIdle web1Handle paramsWeb1 0
        = Outcome.ret (none, w1) ∧
      Event.error virErrorNumber.VIR_ERR_OPERATION_INVALID ∈ emitted dstIdle w1 :=
  (begin_requires_running envOk dstIdle web1Handle paramsWeb1 0 web1Shutoff
    (by decide) (by decide)).1 (by decide)

/-! ## Prepare -/

/-- C6 (the claim fails as stated): a running "web1" found by name whose
facade pointer is null makes Prepare fail with `VIR_ERR_INTERNAL_ERROR`; no
`VIR_ERR_OPERATION_INVALID` (InvalidState) is reported. -/
theorem prepare_running_null_facade_not_invalid_state :
    virDomainObjListFindByName brokenWorld.driver.domains (some "web1")
      = some (0, web1NoFacade) ∧
    virDomainObjIsActive web1NoFacade = true ∧
    lxctoolsDomainMigratePrepare3Params envOk brokenWorld paramsWeb1 0
      = ⟨-1, none, ⟨brokenWorld.driver, [],
          [Event.lock 0, Event.error virErrorNumber.VIR_ERR_INTERNAL_ERROR,
           Event.unlock 0]⟩⟩ := by
  decide

/-- C6 (amended): Prepare with flags 0 on a container found by name whose
private data is consistent.  If the container is running, Prepare returns
failure, reports `VIR_ERR_OPERATION_INVALID` (InvalidState), starts no
receiver process, allocates no session and leaves the session slot empty;
and whenever Prepare returns success the container is not running. -/
theorem prepare_rejects_running (env : Env) (w : World) (params : virTypedParameters)
    (dname : String) (i : Nat) (vm : virDomainObj) (cont : lxc_container)
    (hvalid : params.valid = true)
    (hname : params.dest_name = ParamGet.value dname)
    (huri : params.uri ≠ ParamGet.mismatch)
    (hfind : virDomainObjListFindByName w.driver.domains (some dname) = some (i, vm))
    (hcont : vm.privateData = some cont) :
    (virDomainObjIsActive vm = true →
      (lxctoolsDomainMigratePrepare3Params env w params 0).ret = -1 ∧
      Event.error virErrorNumber.VIR_ERR_OPERATION_INVALID ∈
        emitted w (lxctoolsDomainMigratePrepare3Params env w params 0).world ∧
      (∀ p ok, Event.startCopyServer p ok ∉
        emitted w (lxctoolsDomainMigratePrepare3Params env w params 0).world) ∧
      Event.allocMd ∉ emitted w (lxctoolsDomainMigratePrepare3Params env w params 0).world ∧
      (lxctoolsDomainMigratePrepare3Params env w params 0).world.driver.md = none) ∧
    ((lxctoolsDomainMigratePrepare3Params env w params 0).ret = 0 →
      virDomainObjIsActive vm = false) := by
  unfold lxctoolsDomainMigratePrepare3Params
  cases hp : params.uri with
  | mismatch => exact absurd hp huri
  | absent =>
    cases hact : virDomainObjIsActive vm <;>
      simp [hvalid, hname, hfind, hcont, hact, emitted]
  | value u =>
    cases hact : virDomainObjIsActive vm <;>
      simp [hvalid, hname, hfind, hcont, hact, emitted]

/-- C6 (amended) at a concrete input: Prepare for the running "web1" fails
with `VIR_ERR_OPERATION_INVALID`, starts no receiver and leaves the session
slot empty. -/
theorem prepare_rejects_running_witness :
    (lxctoolsDomainMigratePrepare3Params envOk runningWorld paramsWeb1 0).ret = -1 ∧
    Event.error virErrorNumber.VIR_ERR_OPERATION_INVALID ∈
      emitted runningWorld (lxctoolsDomainMigratePrepare3Params envOk runningWorld paramsWeb1 0).world ∧
    (∀ p ok, Event.startCopyServer p ok ∉
      emitted runningWorld (lxctoolsDomainMigratePrepare3Params envOk runningWorld paramsWeb1 0).world) ∧
    Event.allocMd ∉
      emitted runningWorld (lxctoolsDomainMigratePrepare3Params envOk runningWorld paramsWeb1 0).world ∧
    (lxctoolsDomainMigratePrepare3Params envOk runningWorld paramsWeb1 0).world.driver.md = none :=
  (prepare_rejects_running envOk runningWorld paramsWeb1 "web1" 0 web1Running web1Cont
    (by decide) (by decide) (by decide) (by decide) (by decide)).1 (by decide)

/-- C7 (the claim fails as stated): with no explicit URI and the local host
name "db-7.internal.example.com", which does not start with "localhost",
Prepare fails and the address handed back is the empty string, not the host
name. -/
theorem prepare_long_hostname_not_returned :
    envLongHost.virGetHostname = some "db-7.internal.example.com" ∧
    STRPREFIX "db-7.internal.example.com" "localhost" = false ∧
    lxctoolsDomainMigratePrepare3Params envLongHost dstIdle paramsWeb1 0
      = ⟨-1, some "", ⟨dstIdle.driver, [], [Event.lock 0, Event.unlock 0]⟩⟩ := by
  decide

/-- The bound on the host name is one of bytes, not of characters: the host
name "bücher-übung.de" has 15 characters and 17 bytes, and Prepare fails on
it with the address left empty. -/
theorem prepare_multibyte_hostname_not_returned :
    envUmlautHost.virGetHostname = some "bücher-übung.de" ∧
    "bücher-übung.de".length = 15 ∧
    "bücher-übung.de".utf8ByteSize = 17 ∧
    lxctoolsDomainMigratePrepare3Params envUmlautHost dstIdle paramsWeb1 0
      = ⟨-1, some "", ⟨dstIdle.driver, [], [Event.lock 0, Event.unlock 0]⟩⟩ := by
  decide

/-- C7 (amended): destination resolution in Prepare with no explicit URI,
for a local host name `h` returned by the host lookup.  If `h` starts with
"localhost", Prepare fails and reports `VIR_ERR_INTERNAL_ERROR`
(ConfigurationError).  Otherwise, if `h` takes at most 15 bytes the address
handed back is exactly `h`; if `h` takes more than 15 bytes, Prepare fails,
the address handed back is the empty string, and no session is allocated and
no receiver process started. -/
theorem prepare_hostname_resolution (env : Env) (w : World) (params : virTypedParameters)
    (dname h : String) (i : Nat) (vm : virDomainObj) (cont : lxc_container)
    (hvalid : params.valid = true)
    (hname : params.dest_name = ParamGet.value dname)
    (huri : params.uri = ParamGet.absent)
    (hfind : virDomainObjListFindByName w.driver.domains (some dname) = some (i, vm))
    (hcont : vm.privateData = some cont)
    (hoff : virDomainObjIsActive vm = false)
    (halloc : env.alloc_uri_out = true)
    (hhost : env.virGetHostname = some h) :
    (STRPREFIX h "localhost" = true →
      (lxctoolsDomainMigratePrepare3Params env w params 0).ret = -1 ∧
      Event.error virErrorNumber.VIR_ERR_INTERNAL_ERROR ∈
        emitted w (lxctoolsDomainMigratePrepare3Params env w params 0).world) ∧
    (STRPREFIX h "localhost" = false → h.utf8ByteSize ≤ 15 →
      (lxctoolsDomainMigratePrepare3Params env w params 0).uri_out = some h) ∧
    (STRPREFIX h "localhost" = false → 15 < h.utf8ByteSize →
      (lxctoolsDomainMigratePrepare3Params env w params 0).ret = -1 ∧
      (lxctoolsDomainMigratePrepare3Params env w params 0).uri_out = some "" ∧
      Event.allocMd ∉ emitted w (lxctoolsDomainMigratePrepare3Params env w params 0).world ∧
      (∀ p ok, Event.startCopyServer p ok ∉
        emitted w (lxctoolsDomainMigratePrepare3Params env w params 0).world)) := by
  unfold lxctoolsDomainMigratePrepare3Params
  refine ⟨?_, ?_, ?_⟩
  · intro hp
    simp [hvalid, hname, huri, hfind, hcont, hoff, halloc, hhost, hp, emitted]
  · intro hp hlen
    have hc : virStrcpy h 16 = some h := virStrcpy_fits h 16 (by omega)
    simp [hvalid, hname, huri, hfind, hcont, hoff, halloc, hhost, hp, hc]
  · intro hp hlen
    have hc : virStrcpy h 16 = none := virStrcpy_long h 16 (by omega)
    simp [hvalid, hname, huri, hfind, hcont, hoff, halloc, hhost, hp, hc, emitted]

/-- C7 (amended) at a concrete input: on the host "db-7.internal" Prepare
hands back exactly that name. -/
theorem prepare_hostname_resolution_witness :
    (lxctoolsDomainMigratePrepare3Params envOk dstIdle paramsWeb1 0).uri_out
      = some "db-7.internal" :=
  (prepare_hostname_resolution envOk dstIdle paramsWeb1 "web1" "db-7.internal" 0
    web1Shutoff ⟨false, true, -1, "/var/lib/lxc/web1"⟩
    (by decide) (by decide) (by decide) (by decide) (by decide) (by decide) (by decide)
    (by decide)).2.1 (by decide) (by decide)

/-- C8: destination resolution in Prepare with an explicit URI `u`.  Whenever
Prepare succeeds the address handed back is `u` verbatim (nothing is asked
of `u`, so also when it starts with "localhost"); an address handed back
never exceeds 15 characters; and if `u` is longer than 15 characters Prepare
fails with no session allocated and no receiver process started. -/
theorem prepare_explicit_uri (env : Env) (w : World) (params : virTypedParameters)
    (flags : Nat) (u : String) (huri : params.uri = ParamGet.value u) :
    ((lxctoolsDomainMigratePrepare3Params env w params flags).ret = 0 →
      (lxctoolsDomainMigratePrepare3Params env w params flags).uri_out = some u) ∧
    (∀ a, (lxctoolsDomainMigratePrepare3Params env w params flags).uri_out = some a →
      a.length ≤ 15) ∧
    (15 < u.length →
      (lxctoolsDomainMigratePrepare3Params env w params flags).ret = -1 ∧
      Event.allocMd ∉ emitted w (lxctoolsDomainMigratePrepare3Params env w params flags).world ∧
      (∀ p ok, Event.startCopyServer p ok ∉
        emitted w (lxctoolsDomainMigratePrepare3Params env w params flags).world)) := by
  unfold lxctoolsDomainMigratePrepare3Params
  simp only [huri, virTypedParamsGetString_value]
  refine ⟨?_, ?_, ?_⟩
  · repeat' split
    all_goals simp
    rename_i hc
    intro _
    exact (virStrcpy_some u _ 16 hc).1
  · intro a
    repeat' split
    all_goals simp
    · rintro rfl
      decide
    · rename_i hc
      rintro rfl
      have hl := (virStrcpy_some u _ 16 hc).2
      have hb := length_le_utf8ByteSize u
      rw [(virStrcpy_some u _ 16 hc).1]
      omega
  · intro hlen
    have hb := length_le_utf8ByteSize u
    have hc : virStrcpy u 16 = none := virStrcpy_long u 16 (by omega)
    simp only [hc]
    repeat' split
    all_goals simp [emitted]

/-- C8 at a concrete input: Prepare with the explicit URI "localhost"
succeeds and hands back "localhost". -/
theorem prepare_explicit_uri_witness :
    (lxctoolsDomainMigratePrepare3Params envOk dstIdle paramsLocalUri 0).ret = 0 ∧
    (lxctoolsDomainMigratePrepare3Params envOk dstIdle paramsLocalUri 0).uri_out
      = some "localhost" :=
  ⟨by decide,
    (prepare_explicit_uri envOk dstIdle paramsLocalUri 0 "localhost" (by decide)).1 (by decide)⟩

/-! ## Perform -/

/-- C9: Perform with flags 0 on a container found in the registry whose
private data is consistent always returns.  If the container is not running
it returns failure, reports `VIR_ERR_OPERATION_INVALID` (InvalidState) and
starts no helper process.  If it is running, the result is 0 or -1, and it is
0 exactly when the session allocation and the staging-path computation
succeed and `startCopyProc`, called on the staging path, the container's init
pid and the caller's URI, succeeds.  When that call is reached it is logged
once with the result it gave and the session it filled in is stored; when it
fails, Perform returns failure with `VIR_ERR_OPERATION_FAILED` reported.
When the allocation or the path computation fails, Perform returns failure
and `startCopyProc` is not called.  On the log: the result is 0 exactly when
a successful `startCopyProc` was logged. -/
theorem perform_outcome (env : Env) (w : World) (domain : virDomain)
    (params : virTypedParameters) (i : Nat) (vm : virDomainObj) (cont : lxc_container)
    (hvalid : params.valid = true)
    (huri : params.uri ≠ ParamGet.mismatch)
    (hfind : virDomainObjListFindByUUID w.driver.domains domain.uuid = some (i, vm))
    (hcont : vm.privateData = some cont) :
    ∃ ret w1, lxctoolsDomainMigratePerform3Params env w domain params 0
        = Outcome.ret (ret, w1) ∧
      (virDomainObjIsActive vm = false →
        ret = -1 ∧ Event.error virErrorNumber.VIR_ERR_OPERATION_INVALID ∈ emitted w w1 ∧
        ∀ p pid u ok, Event.startCopyProc p pid u ok ∉ emitted w w1) ∧
      (virDomainObjIsActive vm = true →
        (ret = 0 ∨ ret = -1) ∧
        (ret = 0 ↔
          env.alloc_md = true ∧
          ∃ p, env.concatPaths cont.config_path "migrate_tmpfs" = some p ∧
            (env.startCopyProc p cont.init_pid
              (virTypedParamsGetString params.uri none).2).1 = true) ∧
        (∀ p, env.alloc_md = true → env.concatPaths cont.config_path "migrate_tmpfs" = some p →
          (∀ q pid u ok, Event.startCopyProc q pid u ok ∈ emitted w w1 ↔
            q = p ∧ pid = cont.init_pid ∧ u = (virTypedParamsGetString params.uri none).2 ∧
            ok = (env.startCopyProc p cont.init_pid
              (virTypedParamsGetString params.uri none).2).1) ∧
          w1.driver.md = some (env.startCopyProc p cont.init_pid
            (virTypedParamsGetString params.uri none).2).2 ∧
          ((env.startCopyProc p cont.init_pid
              (virTypedParamsGetString params.uri none).2).1 = false →
            ret = -1 ∧
            Event.error virErrorNumber.VIR_ERR_OPERATION_FAILED ∈ emitted w w1)) ∧
        (env.alloc_md = false ∨ env.concatPaths cont.config_path "migrate_tmpfs" = none →
          ret = -1 ∧ ∀ p pid u ok, Event.startCopyProc p pid u ok ∉ emitted w w1) ∧
        (ret = 0 ↔ ∃ p pid u, Event.startCopyProc p pid u true ∈ emitted w w1) ∧
        (∀ p pid u, Event.startCopyProc p pid u false ∈ emitted w w1 →
          ret = -1 ∧ Event.error virErrorNumber.VIR_ERR_OPERATION_FAILED ∈ emitted w w1)) := by
  have hu : ¬ (virTypedParamsGetString params.uri none).1 < 0 := by
    cases hp : params.uri <;> simp_all
  unfold lxctoolsDomainMigratePerform3Params
  simp only [virCheckFlags_zero, hvalid, hfind, hcont, hu]
  cases hact : virDomainObjIsActive vm
  · simp only [Bool.not_false, Bool.not_true, ↓reduceIte, Bool.false_eq_true]
    refine ⟨_, _, rfl, ?_⟩
    simp [emitted]
  · cases halloc : env.alloc_md
    · simp only [Bool.not_false, Bool.not_true, ↓reduceIte, Bool.false_eq_true]
      refine ⟨_, _, rfl, ?_⟩
      simp [emitted]
    · cases hpath : env.concatPaths cont.config_path "migrate_tmpfs" with
      | none =>
        simp only [Bool.not_false, Bool.not_true, ↓reduceIte, Bool.false_eq_true]
        refine ⟨_, _, rfl, ?_⟩
        simp [emitted]
      | some p =>
        simp only [Bool.not_false, Bool.not_true, ↓reduceIte, Bool.false_eq_true]
        cases hstart :
          (env.startCopyProc p cont.init_pid (virTypedParamsGetString params.uri none).2).1
        · simp only [Bool.not_false, Bool.not_true, ↓reduceIte, Bool.false_eq_true]
          refine ⟨_, _, rfl, ?_⟩
          simp [emitted, hstart]
        · simp only [Bool.not_false, Bool.not_true, ↓reduceIte, Bool.false_eq_true]
          refine ⟨_, _, rfl, ?_⟩
          simp [emitted, hstart]

/-- C9 at concrete inputs: Perform for the running "web1" towards
"db-7.internal" returns 0 where `startCopyProc` succeeds, and returns -1 with
`VIR_ERR_OPERATION_FAILED` reported where `startCopyProc` fails. -/
theorem perform_outcome_witness :
    (∃ w1, lxctoolsDomainMigratePerform3Params envOk srcIdle web1Handle paramsWeb1Uri 0
        = Outcome.ret (0, w1)) ∧
    (∃ w1, lxctoolsDomainMigratePerform3Params envNoStart srcIdle web1Handle paramsWeb1Uri 0
        = Outcome.ret (-1, w1) ∧
      Event.error virErrorNumber.VIR_ERR_OPERATION_FAILED ∈ emitted srcIdle w1) := by
  obtain ⟨ret, w1, h, _, hrun⟩ :=
    perform_outcome envOk srcIdle web1Handle paramsWeb1Uri 0 web1Running web1Cont
      (by decide) (by decide) (by decide) (by decide)
  obtain ⟨ret2, w2, h2, _, hrun2⟩ :=
    perform_outcome envNoStart srcIdle web1Handle paramsWeb1Uri 0 web1Running web1Cont
      (by decide) (by decide) (by decide) (by decide)
  have e1 : ret = 0 :=
    (hrun (by decide)).2.1.mpr ⟨by decide, "/var/lib/lxc/web1/migrate_tmpfs", by decide, by decide⟩
  have e2 := ((hrun2 (by decide)).2.2.1 "/var/lib/lxc/web1/migrate_tmpfs"
    (by decide) (by decide)).2.2 (by decide)
  subst e1
  obtain ⟨e3, e4⟩ := e2
  subst e3
  exact ⟨⟨w1, h⟩, ⟨w2, h2, e4⟩⟩

/-! ## The session slot -/

/-- Finish and Confirm never write the session slot: whenever they return,
the slot holds what it held on entry. -/
theorem finish_confirm_keep_slot (env : Env) (w : World) (params : virTypedParameters)
    (flags : Nat) (cancelled : Int) :
    (∀ r, lxctoolsDomainMigrateFinish3Params env w params flags cancelled = Outcome.ret r →
      r.2.driver.md = w.driver.md) ∧
    (∀ r, lxctoolsDomainMigrateConfirm3Params env w params flags cancelled = Outcome.ret r →
      r.2.driver.md = w.driver.md) := by
  constructor
  · intro r
    unfold lxctoolsDomainMigrateFinish3Params
    dsimp only
    repeat' split
    all_goals simp only [Outcome.ret.injEq, reduceCtorEq, false_implies]
    all_goals
      rintro rfl
      simp
  · intro r
    unfold lxctoolsDomainMigrateConfirm3Params
    dsimp only
    repeat' split
    all_goals simp only [Outcome.ret.injEq, reduceCtorEq, false_implies]
    all_goals
      rintro rfl
      simp

/-- C10 (code evaluated at the failing inputs): the session slot is not
released.  Prepare for the not running "web1" where the receiver processes
fail to start returns -1 with the freshly allocated session still in the
slot.  Perform for the running "web1" returns -1 with the allocated session
still in the slot, both where the helper processes fail to start and where
the staging path cannot be computed.  Finish (here with `cancelled` true) and
Confirm return with the session they found still in the slot. -/
theorem session_slot_not_released :
    lxctoolsDomainMigratePrepare3Params envNoStart dstIdle paramsWeb1 0
      = ⟨-1, some "db-7.internal",
          ⟨⟨[web1Shutoff], some ⟨0, 0⟩⟩, [],
           [Event.lock 0, Event.allocMd,
            Event.startCopyServer "/var/lib/lxc/web1/migrate_tmpfs" false,
            Event.error virErrorNumber.VIR_ERR_OPERATION_FAILED, Event.unlock 0]⟩⟩ ∧
    lxctoolsDomainMigratePerform3Params envNoStart srcIdle web1Handle paramsWeb1Uri 0
      = Outcome.ret (-1,
          ⟨⟨[web1Running], some ⟨0, 0⟩⟩, [("/backups", true)],
           [Event.lock 0, Event.allocMd,
            Event.startCopyProc "/var/lib/lxc/web1/migrate_tmpfs" 4242 (some "db-7.internal")
              false,
            Event.error virErrorNumber.VIR_ERR_OPERATION_FAILED, Event.unlock 0]⟩) ∧
    lxctoolsDomainMigratePerform3Params envNoPath srcIdle web1Handle paramsWeb1Uri 0
      = Outcome.ret (-1,
          ⟨⟨[web1Running], some ⟨0, 0⟩⟩, [("/backups", true)],
           [Event.lock 0, Event.allocMd, Event.unlock 0]⟩) ∧
    lxctoolsDomainMigrateFinish3Params envOk dstWorld paramsWeb1 0 1
      = Outcome.ret (none,
          ⟨⟨[web1Shutoff], some ⟨401, 402⟩⟩, [],
           [Event.lock 0, Event.error virErrorNumber.VIR_ERR_OPERATION_FAILED,
            Event.waitForMigrationProcs true, Event.unlock 0]⟩) ∧
    lxctoolsDomainMigrateConfirm3Params envOk srcWorld paramsWeb1 0 0
      = Outcome.ret (0,
          ⟨⟨[web1Running], some ⟨301, 302⟩⟩, [("/backups", true)],
           [Event.lock 0, Event.waitForMigrationProcs true, Event.unlock 0]⟩) := by
  decide

/-! ## Missing container on the source side -/

/-- With flags 0 and valid parameters, Begin on a UUID the registry does not
hold goes on to dereference the null object pointer. -/
theorem begin_missing_container_faults (env : Env) (w : World) (domain : virDomain)
    (params : virTypedParameters) (hvalid : params.valid = true)
    (hfind : virDomainObjListFindByUUID w.driver.domains domain.uuid = none) :
    lxctoolsDomainMigrateBegin3Params env w domain params 0
      = Outcome.fault (w.report virErrorNumber.VIR_ERR_NO_DOMAIN) := by
  unfold lxctoolsDomainMigrateBegin3Params
  simp [hvalid, hfind]

/-- With flags 0 and usable parameters, Perform on a UUID the registry does
not hold goes on to dereference the null object pointer. -/
theorem perform_missing_container_faults (env : Env) (w : World) (domain : virDomain)
    (params : virTypedParameters) (hvalid : params.valid = true)
    (huri : params.uri ≠ ParamGet.mismatch)
    (hfind : virDomainObjListFindByUUID w.driver.domains domain.uuid = none) :
    lxctoolsDomainMigratePerform3Params env w domain params 0
      = Outcome.fault (w.report virErrorNumber.VIR_ERR_NO_DOMAIN) := by
  have hu : ¬ (virTypedParamsGetString params.uri none).1 < 0 := by
    cases hp : params.uri <;> simp_all
  unfold lxctoolsDomainMigratePerform3Params
  simp [hvalid, hfind, hu]

/-- C14 (code evaluated at the failing input): on a host whose registry is
empty, the lookup by UUID finds nothing, and Begin and Perform with flags 0
and valid parameters do not return a failure: both report
`VIR_ERR_NO_DOMAIN` and run on into a dereference of the null object pointer. -/
theorem begin_perform_missing_container_dereference :
    virDomainObjListFindByUUID emptyWorld.driver.domains web1Handle.uuid = none ∧
    lxctoolsDomainMigrateBegin3Params envOk emptyWorld web1Handle paramsWeb1 0
      = Outcome.fault ⟨emptyWorld.driver, [], [Event.error virErrorNumber.VIR_ERR_NO_DOMAIN]⟩ ∧
    lxctoolsDomainMigratePerform3Params envOk emptyWorld web1Handle paramsWeb1Uri 0
      = Outcome.fault ⟨emptyWorld.driver, [],
          [Event.error virErrorNumber.VIR_ERR_NO_DOMAIN]⟩ := by
  decide

/-! ## Flags -/

/-- A non-zero 32-bit flags value has a bit outside the empty supported set. -/
theorem virCheckFlags_nonzero (flags : Nat) (hpos : 0 < flags) (hlt : flags < 2 ^ 32) :
    virCheckFlags 0 flags = true := by
  unfold virCheckFlags
  have h1 : flags % 2 ^ 32 = flags := Nat.mod_eq_of_lt hlt
  have h2 : flags &&& (2 ^ 32 - 1) = flags := by
    rw [Nat.and_pow_two_sub_one_eq_mod, h1]
  have h3 : (2 ^ 32 - 1) ^^^ (0 % 2 ^ 32) = 2 ^ 32 - 1 := by decide
  rw [h1, h3, h2]
  simp
  omega

/-- C15: for each of the five migration phases and every non-zero (32-bit)
flags value, the phase returns failure and the world afterwards is the world
before with one `VIR_ERR_INVALID_ARG` report added: nothing is looked up or
locked, and the driver state (session slot and every container) is unchanged. -/
theorem nonzero_flags_rejected (env : Env) (w : World) (domain : virDomain)
    (params : virTypedParameters) (flags : Nat) (cancelled : Int)
    (hpos : 0 < flags) (hlt : flags < 2 ^ 32) :
    lxctoolsDomainMigrateBegin3Params env w domain params flags
      = Outcome.ret (none, w.report virErrorNumber.VIR_ERR_INVALID_ARG) ∧
    lxctoolsDomainMigratePrepare3Params env w params flags
      = ⟨-1, none, w.report virErrorNumber.VIR_ERR_INVALID_ARG⟩ ∧
    lxctoolsDomainMigratePerform3Params env w domain params flags
      = Outcome.ret (-1, w.report virErrorNumber.VIR_ERR_INVALID_ARG) ∧
    lxctoolsDomainMigrateFinish3Params env w params flags cancelled
      = Outcome.ret (none, w.report virErrorNumber.VIR_ERR_INVALID_ARG) ∧
    lxctoolsDomainMigrateConfirm3Params env w params flags cancelled
      = Outcome.ret (-1, w.report virErrorNumber.VIR_ERR_INVALID_ARG) ∧
    (w.report virErrorNumber.VIR_ERR_INVALID_ARG).driver = w.driver ∧
    emitted w (w.report virErrorNumber.VIR_ERR_INVALID_ARG)
      = [Event.error virErrorNumber.VIR_ERR_INVALID_ARG] := by
  have hf := virCheckFlags_nonzero flags hpos hlt
  refine ⟨?_, ?_, ?_, ?_, ?_, rfl, ?_⟩
  · unfold lxctoolsDomainMigrateBegin3Params
    simp [hf]
  · unfold lxctoolsDomainMigratePrepare3Params
    simp [hf]
  · unfold lxctoolsDomainMigratePerform3Params
    simp [hf]
  · unfold lxctoolsDomainMigrateFinish3Params
    simp [hf]
  · unfold lxctoolsDomainMigrateConfirm3Params
    simp [hf]
  · simp [emitted]

/-- C15 at a concrete input: the five phases called on the source host in
mid-migration with flags 1. -/
theorem nonzero_flags_rejected_witness :
    lxctoolsDomainMigrateBegin3Params envOk srcWorld web1Handle paramsWeb1 1
      = Outcome.ret (none, srcWorld.report virErrorNumber.VIR_ERR_INVALID_ARG) ∧
    lxctoolsDomainMigratePrepare3Params envOk srcWorld paramsWeb1 1
      = ⟨-1, none, srcWorld.report virErrorNumber.VIR_ERR_INVALID_ARG⟩ ∧
    lxctoolsDomainMigratePerform3Params envOk srcWorld web1Handle paramsWeb1 1
      = Outcome.ret (-1, srcWorld.report virErrorNumber.VIR_ERR_INVALID_ARG) ∧
    lxctoolsDomainMigrateFinish3Params envOk srcWorld paramsWeb1 1 0
      = Outcome.ret (none, srcWorld.report virErrorNumber.VIR_ERR_INVALID_ARG) ∧
    lxctoolsDomainMigrateConfirm3Params envOk srcWorld paramsWeb1 1 0
      = Outcome.ret (-1, srcWorld.report virErrorNumber.VIR_ERR_INVALID_ARG) ∧
    (srcWorld.report virErrorNumber.VIR_ERR_INVALID_ARG).driver = srcWorld.driver ∧
    emitted srcWorld (srcWorld.report virErrorNumber.VIR_ERR_INVALID_ARG)
      = [Event.error virErrorNumber.VIR_ERR_INVALID_ARG] :=
  nonzero_flags_rejected envOk srcWorld web1Handle paramsWeb1 1 0 (by decide) (by decide)

/-! ## Directory creation in Save -/

/-- The test `!mkdir(...) < 0` never holds. -/
theorem lnot_not_neg (x : Int) : ¬ lnot x < 0 := by
  unfold lnot
  split <;> omega

/-- Whatever `mkdir` returns, the checkpoint step of Save goes on to the
facade checkpoint call. -/
theorem saveCheckpoint_ignores_mkdir (env : Env) (w : World) (domain : virDomain)
    (flags : Nat) (i : Nat) (vm : virDomainObj) (cont : lxc_container) (save_path : String) :
    ∃ stop ok, Event.checkpoint i save_path stop ok ∈
      emitted w (saveCheckpoint env w domain flags i vm cont save_path).world := by
  unfold saveCheckpoint
  have hm : ∃ evs, (mkdir env w save_path).2.trace = w.trace ++ evs := by
    unfold mkdir
    split
    · exact ⟨_, rfl⟩
    · exact ⟨_, rfl⟩
  obtain ⟨evs, hevs⟩ := hm
  simp only [lnot_not_neg, ↓reduceIte]
  by_cases hrun : (flags &&& VIR_DOMAIN_SAVE_RUNNING != 0) = true
  · refine ⟨false, env.checkpoint cont save_path false, ?_⟩
    cases hok : env.checkpoint cont save_path false <;>
      simp [hrun, hok, emitted, hevs]
  · refine ⟨true, env.checkpoint cont save_path true, ?_⟩
    cases hok : env.checkpoint cont save_path true <;>
      simp [hrun, hok, emitted, hevs]

/-- C18 (code evaluated at the failing input): Save of the running "web1" to
`/backups` with flags 0, every earlier check passing, on a system that
refuses to create `/backups/web1`: `mkdir` returns -1, no
`VIR_ERR_OPERATION_FAILED` is reported, the facade checkpoint is invoked all
the same, and Save returns 0 with the container marked shut off. -/
theorem save_mkdir_failure_ignored :
    lxctoolsDomainSaveFlags envNoMkdir srcWorld web1Handle "/backups" 0
      = Outcome.ret ⟨0, ⟨"web1", 1, -1⟩,
          ⟨⟨[⟨⟨"web1", 1, -1⟩, virDomainState.VIR_DOMAIN_SHUTOFF,
               virDomainReason.VIR_DOMAIN_SHUTOFF_SAVED, 4242,
               some ⟨false, true, 4242, "/var/lib/lxc/web1"⟩⟩], some ⟨301, 302⟩⟩,
           [("/backups", true)],
           [Event.lock 0, Event.mkdir "/backups/web1" (-1),
            Event.checkpoint 0 "/backups/web1" true true, Event.unlock 0]⟩⟩ := by
  decide

/-! ## CPU count in GetInfo -/

/-- Whenever the CPU item is non-empty, fetched completely and parses to a
count that is non-zero as an `unsigned short`, the CPU step stores that count
and fails. -/
theorem getInfoCpu_configured_fails (env : Env) (cont : lxc_container) (info : virDomainInfo)
    (hlen : 0 < env.config_item_len cont "lxc.cgroup.cpuset.cpus")
    (halloc : env.alloc_item 0 = true)
    (hfetch : (env.config_item_fetch cont "lxc.cgroup.cpuset.cpus"
      (env.config_item_len cont "lxc.cgroup.cpuset.cpus")).1
        = env.config_item_len cont "lxc.cgroup.cpuset.cpus")
    (hparse : toUShort (env.strtol (env.config_item_fetch cont "lxc.cgroup.cpuset.cpus"
      (env.config_item_len cont "lxc.cgroup.cpuset.cpus")).2) ≠ 0) :
    (getInfoCpu env cont info).1 = false ∧
    (getInfoCpu env cont info).2.nrVirtCpu
      = toUShort (env.strtol (env.config_item_fetch cont "lxc.cgroup.cpuset.cpus"
          (env.config_item_len cont "lxc.cgroup.cpuset.cpus")).2) := by
  unfold getInfoCpu
  have h1 : ¬ env.config_item_len cont "lxc.cgroup.cpuset.cpus" < 0 := by omega
  simp [h1, halloc, hfetch, hlen, hparse]

/-- C19 (code evaluated at the failing input): GetInfo on the running "web1"
whose `lxc.cgroup.cpuset.cpus` item is "2", fetched completely and parsed to
2: `nrVirtCpu` is set to 2, and the call fails at the CPU step (returns -1,
with no memory figure filled in). -/
theorem getinfo_configured_cpus_fails :
    lxctoolsDomainGetInfo envOk srcWorld web1Handle info0
      = Outcome.ret ⟨-1, ⟨virDomainState.VIR_DOMAIN_RUNNING, 0, 0, 2, 0⟩,
          ⟨srcWorld.driver, srcWorld.fs, [Event.lock 0, Event.unlock 0]⟩⟩ := by
  decide

/-- For a container found by name with a facade, a completely fetched CPU
item that parses to a non-zero count makes GetInfo fail with that count
stored. -/
theorem getinfo_configured_cpus_general (env : Env) (w : World) (dom : virDomain)
    (info : virDomainInfo) (i : Nat) (vm : virDomainObj) (cont : lxc_container)
    (hfind : virDomainObjListFindByName w.driver.domains (some dom.name) = some (i, vm))
    (hcont : vm.privateData = some cont)
    (hlen : 0 < env.config_item_len cont "lxc.cgroup.cpuset.cpus")
    (halloc : env.alloc_item 0 = true)
    (hfetch : (env.config_item_fetch cont "lxc.cgroup.cpuset.cpus"
      (env.config_item_len cont "lxc.cgroup.cpuset.cpus")).1
        = env.config_item_len cont "lxc.cgroup.cpuset.cpus")
    (hparse : toUShort (env.strtol (env.config_item_fetch cont "lxc.cgroup.cpuset.cpus"
      (env.config_item_len cont "lxc.cgroup.cpuset.cpus")).2) ≠ 0) :
    ∃ r, lxctoolsDomainGetInfo env w dom info = Outcome.ret r ∧ r.ret = -1 ∧
      r.info.nrVirtCpu
        = toUShort (env.strtol (env.config_item_fetch cont "lxc.cgroup.cpuset.cpus"
            (env.config_item_len cont "lxc.cgroup.cpuset.cpus")).2) := by
  have hc := getInfoCpu_configured_fails env cont
    { info with state := env.lxcState2virState (env.state cont) } hlen halloc hfetch hparse
  unfold lxctoolsDomainGetInfo
  simp only [hfind, hcont, hc.1, Bool.not_false, ↓reduceIte]
  exact ⟨_, rfl, rfl, hc.2⟩

/-! ## Restore -/

@[simp] theorem virFileExists_log (w : World) (e : Event) (p : String) :
    virFileExists (w.log e) p = virFileExists w p := rfl

@[simp] theorem virFileIsDir_log (w : World) (e : Event) (p : String) :
    virFileIsDir (w.log e) p = virFileIsDir w p := rfl

/-- C13: Restore with flags 0 returns 0 exactly when the path names a
container that is found (with its facade), the path exists and is a
directory, the container is not running and may be controlled, the helper
tool is present and the facade restore succeeds.  On success the registry
object carries the init pid the facade reports as its id and is in state
running, reason restored; on every failure the result is -1 and the registry
is unchanged. -/
theorem restore_outcome (env : Env) (w : World) (from_ : String) :
    ((lxctoolsDomainRestoreFlags env w from_ 0).1 = 0 ↔
      ∃ name i vm cont pid,
        env.getContainerNameFromPath from_ = some name ∧
        virDomainObjListFindByName w.driver.domains (some name) = some (i, vm) ∧
        vm.privateData = some cont ∧
        virFileExists w from_ = true ∧ virFileIsDir w from_ = true ∧
        cont.is_running = false ∧ cont.may_control = true ∧
        env.criuExists = true ∧ env.restore cont from_ = some pid) ∧
    (∀ name i vm cont pid,
        env.getContainerNameFromPath from_ = some name →
        virDomainObjListFindByName w.driver.domains (some name) = some (i, vm) →
        vm.privateData = some cont →
        (lxctoolsDomainRestoreFlags env w from_ 0).1 = 0 →
        env.restore cont from_ = some pid →
        ∃ vm1, (lxctoolsDomainRestoreFlags env w from_ 0).2.driver.domains
            = w.driver.domains.set i vm1 ∧
          vm1.def_.id = pid ∧
          vm1.privateData = some { cont with is_running := true, init_pid := pid } ∧
          vm1.state = virDomainState.VIR_DOMAIN_RUNNING ∧
          vm1.reason = virDomainReason.VIR_DOMAIN_RUNNING_RESTORED) ∧
    ((lxctoolsDomainRestoreFlags env w from_ 0).1 ≠ 0 →
      (lxctoolsDomainRestoreFlags env w from_ 0).1 = -1 ∧
      (lxctoolsDomainRestoreFlags env w from_ 0).2.driver.domains = w.driver.domains) := by
  unfold lxctoolsDomainRestoreFlags
  simp only [virCheckFlags_zero]
  refine ⟨?_, ?_, ?_⟩
  · dsimp only
    repeat' split
    all_goals simp_all
    exact ⟨_, _, ⟨rfl, rfl⟩, _, by assumption, by assumption, by assumption, _, by assumption⟩
  · intro name i vm cont pid hn hf hc
    simp only [hn, hf, hc]
    repeat' split
    all_goals simp_all
    intro _
    exact ⟨_, rfl, rfl, rfl, rfl, rfl⟩
  · dsimp only
    repeat' split
    all_goals simp_all

/-- C13 at a concrete input: Restore of the not running "web1" from the
existing directory `/backups/web1` succeeds. -/
theorem restore_outcome_witness :
    (lxctoolsDomainRestoreFlags envOk restoreWorld "/backups/web1" 0).1 = 0 :=
  (restore_outcome envOk restoreWorld "/backups/web1").1.mpr
    ⟨"web1", 0, web1Shutoff, ⟨false, true, -1, "/var/lib/lxc/web1"⟩, 5151,
      by decide, by decide, by decide, by decide, by decide, by decide, by decide,
      by decide, by decide⟩

/-! ## Save with stop -/

/-- The call `mkdir` logs exactly one event carrying its result, and leaves
the driver state alone. -/
theorem mkdir_spec (env : Env) (w : World) (p : String) :
    (mkdir env w p).2.trace = w.trace ++ [Event.mkdir p (mkdir env w p).1] ∧
    (mkdir env w p).2.driver = w.driver := by
  unfold mkdir
  split
  · exact ⟨rfl, rfl⟩
  · exact ⟨rfl, rfl⟩

/-- C17: Save with supported flags that do not include
`VIR_DOMAIN_SAVE_RUNNING`, when every precondition holds (container found
with its facade, target an existing directory, container running and
controllable, helper tool present, checkpoint path computed and absent).
The facade checkpoint is invoked with `stop = true` and never with
`stop = false`; if it succeeds Save returns 0, the caller's handle gets id -1
and the registry object becomes shut off (reason saved) with id -1; if it
fails Save returns -1 and the handle and the registry are unchanged. -/
theorem save_stop_outcome (env : Env) (w : World) (domain : virDomain) (to_ : String)
    (flags : Nat) (i : Nat) (vm : virDomainObj) (cont : lxc_container) (p : String)
    (hflags : virCheckFlags (VIR_DOMAIN_SAVE_RUNNING ||| VIR_DOMAIN_SAVE_PAUSED) flags = false)
    (hstop : (flags &&& VIR_DOMAIN_SAVE_RUNNING != 0) = false)
    (hfind : virDomainObjListFindByUUID w.driver.domains domain.uuid = some (i, vm))
    (hcont : vm.privateData = some cont)
    (hto : virFileExists w to_ = true) (hdir : virFileIsDir w to_ = true)
    (hrun : cont.is_running = true) (hctl : cont.may_control = true)
    (hcriu : env.criuExists = true)
    (hpath : env.concatPaths to_ domain.name = some p)
    (hfree : virFileExists w p = false) :
    ∃ r, lxctoolsDomainSaveFlags env w domain to_ flags = Outcome.ret r ∧
      Event.checkpoint i p true (env.checkpoint cont p true) ∈ emitted w r.world ∧
      (∀ j q ok, Event.checkpoint j q false ok ∉ emitted w r.world) ∧
      (env.checkpoint cont p true = true →
        r.ret = 0 ∧ r.domain.id = -1 ∧
        ∃ vm1, r.world.driver.domains = w.driver.domains.set i vm1 ∧
          vm1.def_.id = -1 ∧ vm1.state = virDomainState.VIR_DOMAIN_SHUTOFF ∧
          vm1.reason = virDomainReason.VIR_DOMAIN_SHUTOFF_SAVED) ∧
      (env.checkpoint cont p true = false →
        r.ret = -1 ∧ r.domain = domain ∧ r.world.driver.domains = w.driver.domains) := by
  obtain ⟨hevs, hdrv⟩ := mkdir_spec env (w.log (Event.lock i)) p
  unfold lxctoolsDomainSaveFlags
  simp only [hflags, hfind, hcont, virFileExists_log, virFileIsDir_log, hto, hdir, hrun, hctl,
    hcriu, hpath, hfree, Bool.not_true, Bool.false_eq_true, ↓reduceIte]
  refine ⟨_, rfl, ?_⟩
  unfold saveCheckpoint
  simp only [lnot_not_neg, hstop, Bool.false_eq_true, ↓reduceIte]
  cases hok : env.checkpoint cont p true
  · simp [emitted, hevs, hdrv]
  · simp [emitted, hevs, hdrv]
    exact ⟨_, rfl, rfl, rfl, rfl⟩

/-- C17 at a concrete input: plain `lxctoolsDomainSave` of the running "web1"
to `/backups` returns 0 and hands back id -1. -/
theorem save_stop_outcome_witness :
    ∃ r, lxctoolsDomainSave envOk srcWorld web1Handle "/backups" = Outcome.ret r ∧
      r.ret = 0 ∧ r.domain.id = -1 := by
  obtain ⟨r, h, _, _, hs, _⟩ :=
    save_stop_outcome envOk srcWorld web1Handle "/backups" 0 0 web1Running web1Cont
      "/backups/web1" (by decide) (by decide) (by decide) (by decide) (by decide) (by decide)
      (by decide) (by decide) (by decide) (by decide) (by decide)
  exact ⟨r, h, (hs (by decide)).1, (hs (by decide)).2.1⟩

/-! ## Checkpoint path collision -/

/-- Overwriting a found object by one that still satisfies the predicate
leaves it found at the same index. -/
theorem findObjFrom_set (p : virDomainObj → Bool) (doms : List virDomainObj) (k i : Nat)
    (vm vm1 : virDomainObj) (h : findObjFrom p doms k = some (i, vm)) (hp : p vm1 = true) :
    findObjFrom p (doms.set (i - k) vm1) k = some (i, vm1) := by
  induction doms generalizing k with
  | nil => simp [findObjFrom] at h
  | cons o os ih =>
    unfold findObjFrom at h
    split at h
    · simp only [Option.some.injEq, Prod.mk.injEq] at h
      obtain ⟨rfl, rfl⟩ := h
      simp [findObjFrom, hp]
    · rename_i hpo
      have hk := (findObjFrom_some p os (k + 1) i vm h).2.1
      have e : i - k = (i - (k + 1)) + 1 := by omega
      rw [e, List.set_cons_succ]
      unfold findObjFrom
      simp only [hpo, Bool.false_eq_true, ↓reduceIte]
      exact ih (k + 1) h

/-- A `mkdir` that returns 0 has added the directory to the file system. -/
theorem mkdir_created (env : Env) (w : World) (p : String) (h : (mkdir env w p).1 = 0) :
    (mkdir env w p).2.fs = w.fs ++ [(p, true)] := by
  unfold mkdir at h ⊢
  split
  · rename_i hc
    simp [hc] at h
  · rfl

/-- The checkpoint step of Save: its log is the `mkdir` event followed by
events that are no `mkdir` and hold exactly one lock event, the release; the
file system is the one `mkdir` left; the handle keeps its name and UUID; and
either the driver state is untouched and no successful checkpoint with stop
was logged, or such a checkpoint was logged, the result is 0 and the registry
object is replaced by one with the same UUID and name whose facade is not
running. -/
theorem saveCheckpoint_spec (env : Env) (w : World) (domain : virDomain) (flags : Nat)
    (i : Nat) (vm : virDomainObj) (cont : lxc_container) (sp : String) :
    ∃ rest, (saveCheckpoint env w domain flags i vm cont sp).world.trace
        = w.trace ++ Event.mkdir sp (mkdir env w sp).1 :: rest ∧
      (∀ q rc, Event.mkdir q rc ∉ rest) ∧ lockEvents rest = [Event.unlock i] ∧
      (saveCheckpoint env w domain flags i vm cont sp).world.fs = (mkdir env w sp).2.fs ∧
      (saveCheckpoint env w domain flags i vm cont sp).domain.name = domain.name ∧
      (saveCheckpoint env w domain flags i vm cont sp).domain.uuid = domain.uuid ∧
      (((saveCheckpoint env w domain flags i vm cont sp).world.driver = w.driver ∧
          ∀ j q, Event.checkpoint j q true true ∉ rest) ∨
       (Event.checkpoint i sp true true ∈ rest ∧
          (saveCheckpoint env w domain flags i vm cont sp).ret = 0 ∧
          ∃ vm1, (saveCheckpoint env w domain flags i vm cont sp).world.driver.domains
              = w.driver.domains.set i vm1 ∧
            vm1.def_.uuid = vm.def_.uuid ∧ vm1.def_.name = vm.def_.name ∧
            vm1.privateData = some { cont with is_running := false })) := by
  obtain ⟨hevs, hdrv⟩ := mkdir_spec env w sp
  unfold saveCheckpoint
  simp only [lnot_not_neg, ↓reduceIte]
  by_cases hrun : (flags &&& VIR_DOMAIN_SAVE_RUNNING != 0) = true
  · simp only [hrun, ↓reduceIte]
    cases hok : env.checkpoint cont sp false
    · refine ⟨[Event.checkpoint i sp false false,
          Event.error virErrorNumber.VIR_ERR_OPERATION_FAILED, Event.unlock i], ?_, ?_, ?_, ?_⟩
      all_goals simp [hevs, hdrv, lockEvents, Event.isLock]
    · refine ⟨[Event.checkpoint i sp false true, Event.unlock i], ?_, ?_, ?_, ?_⟩
      all_goals simp [hevs, hdrv, lockEvents, Event.isLock]
  · simp only [hrun, ↓reduceIte]
    cases hok : env.checkpoint cont sp true
    · refine ⟨[Event.checkpoint i sp true false,
          Event.error virErrorNumber.VIR_ERR_OPERATION_FAILED, Event.unlock i], ?_, ?_, ?_, ?_⟩
      all_goals simp [hevs, hdrv, lockEvents, Event.isLock]
    · refine ⟨[Event.checkpoint i sp true true, Event.unlock i], ?_, ?_, ?_, ?_⟩
      all_goals simp [hevs, hdrv, lockEvents, Event.isLock]
      exact ⟨_, rfl, rfl, rfl, rfl⟩

/-- If a Save call logged a successful `mkdir`, every precondition held, the
directory created is the checkpoint path, and the result is that of the
checkpoint step. -/
theorem save_created_inv (env : Env) (w : World) (domain : virDomain) (to_ : String)
    (flags : Nat) (r1 : SaveResult) (p : String)
    (h1 : lxctoolsDomainSaveFlags env w domain to_ flags = Outcome.ret r1)
    (hmk : Event.mkdir p 0 ∈ emitted w r1.world) :
    ∃ i vm cont,
      virCheckFlags (VIR_DOMAIN_SAVE_RUNNING ||| VIR_DOMAIN_SAVE_PAUSED) flags = false ∧
      virDomainObjListFindByUUID w.driver.domains domain.uuid = some (i, vm) ∧
      vm.privateData = some cont ∧
      virFileExists w to_ = true ∧ virFileIsDir w to_ = true ∧
      cont.is_running = true ∧ cont.may_control = true ∧ env.criuExists = true ∧
      env.concatPaths to_ domain.name = some p ∧ virFileExists w p = false ∧
      r1 = saveCheckpoint env (w.log (Event.lock i)) domain flags i vm cont p ∧
      (mkdir env (w.log (Event.lock i)) p).1 = 0 := by
  unfold lxctoolsDomainSaveFlags at h1
  dsimp only at h1
  repeat' split at h1
  all_goals simp only [Outcome.ret.injEq, reduceCtorEq] at h1
  all_goals subst h1
  all_goals try (simp [emitted] at hmk; done)
  rename_i hfl _ i vm hfind hex hdir _ cont hcont hrun hctl hcriu _ sp hpath hfree
  obtain ⟨rest, htr, hno, _⟩ :=
    saveCheckpoint_spec env (w.log (Event.lock i)) domain flags i vm cont sp
  simp only [emitted, htr, World.log_trace, List.append_assoc, List.drop_left,
    List.singleton_append, List.mem_cons, Event.mkdir.injEq, reduceCtorEq, false_or] at hmk
  rcases hmk with ⟨rfl, h0⟩ | hmem
  · refine ⟨i, vm, cont, ?_, ?_, ?_, ?_, ?_, ?_, ?_, ?_, ?_, ?_, rfl, h0.symm⟩
    all_goals simp_all
  · exact absurd hmem (hno _ _)

/-- Entries added to the file system keep existing paths existing. -/
theorem virFileExists_of_fs_append (w w1 : World) (q : String) (extra : List (String × Bool))
    (hfs : w1.fs = w.fs ++ extra) (h : virFileExists w q = true) :
    virFileExists w1 q = true := by
  unfold virFileExists at h ⊢
  rw [hfs, List.any_append, h]
  rfl

/-- Entries added to the file system keep existing directories directories. -/
theorem virFileIsDir_of_fs_append (w w1 : World) (q : String) (extra : List (String × Bool))
    (hfs : w1.fs = w.fs ++ extra) (h : virFileIsDir w q = true) :
    virFileIsDir w1 q = true := by
  unfold virFileIsDir at h ⊢
  rw [hfs, List.any_append, h]
  rfl

/-- C11 (amended): if a Save call created the checkpoint directory (it logged
a `mkdir` with result 0), the identical call made next, with no cleanup in
between, finds the same registry object, returns failure and does not invoke
the facade checkpoint.  Which error it reports depends on the container at
that second call: if it is still running, the call reports
`VIR_ERR_INVALID_ARG`, the driver's "already a checkpoint present" error
(AlreadyExists), and nothing else; if it is not running, the call reports
`VIR_ERR_OPERATION_DENIED`, the "not in running state" error, and nothing
else.  The container is not running at the second call exactly when the first
call took a successful checkpoint with stop. -/
theorem save_twice_collides (env : Env) (w : World) (domain : virDomain) (to_ : String)
    (flags : Nat) (r1 : SaveResult) (p : String)
    (h1 : lxctoolsDomainSaveFlags env w domain to_ flags = Outcome.ret r1)
    (hmk : Event.mkdir p 0 ∈ emitted w r1.world) :
    ∃ r2 i vm2 c2,
      virDomainObjListFindByUUID r1.world.driver.domains r1.domain.uuid = some (i, vm2) ∧
      vm2.privateData = some c2 ∧
      lxctoolsDomainSaveFlags env r1.world r1.domain to_ flags = Outcome.ret r2 ∧
      r2.ret = -1 ∧
      (∀ j q s ok, Event.checkpoint j q s ok ∉ emitted r1.world r2.world) ∧
      (c2.is_running = true → emitted r1.world r2.world
        = [Event.lock i, Event.error virErrorNumber.VIR_ERR_INVALID_ARG, Event.unlock i]) ∧
      (c2.is_running = false → emitted r1.world r2.world
        = [Event.lock i, Event.error virErrorNumber.VIR_ERR_OPERATION_DENIED,
           Event.unlock i]) ∧
      (c2.is_running = false ↔ Event.checkpoint i p true true ∈ emitted w r1.world) := by
  obtain ⟨i, vm, cont, hfl, hfind, hcont, hex, hdir, hrun, hctl, hcriu, hpath, hfree, hr1, hm0⟩ :=
    save_created_inv env w domain to_ flags r1 p h1 hmk
  obtain ⟨rest, htr, _, _, hfs, hname, huuid, hcase⟩ :=
    saveCheckpoint_spec env (w.log (Event.lock i)) domain flags i vm cont p
  rw [← hr1] at htr hfs hname huuid hcase
  have hem : ∀ e, e ∈ rest → e ∈ emitted w r1.world := by
    intro e he
    simp [emitted, htr, he]
  have hem2 : ∀ j q, Event.checkpoint j q true true ∈ emitted w r1.world →
      Event.checkpoint j q true true ∈ rest := by
    intro j q he
    simpa [emitted, htr] using he
  have hfs1 : r1.world.fs = w.fs ++ [(p, true)] := by
    rw [hfs, mkdir_created env _ p hm0]
    rfl
  have hex1 := virFileExists_of_fs_append w r1.world to_ _ hfs1 hex
  have hdir1 := virFileIsDir_of_fs_append w r1.world to_ _ hfs1 hdir
  have hp1 : virFileExists r1.world p = true := by
    unfold virFileExists
    rw [hfs1, List.any_append]
    simp
  have hpv := (findObjFrom_some _ _ 0 i vm hfind).1
  rcases hcase with ⟨hdrv, hnone⟩ | ⟨hmem, _, vm1, hdoms, hu1, _, hpd⟩
  · have hfind1 : virDomainObjListFindByUUID r1.world.driver.domains r1.domain.uuid
        = some (i, vm) := by
      rw [hdrv, huuid]
      exact hfind
    have key : lxctoolsDomainSaveFlags env r1.world r1.domain to_ flags
        = Outcome.ret ⟨-1, r1.domain, ((r1.world.log (Event.lock i)).report
            virErrorNumber.VIR_ERR_INVALID_ARG).unlock i⟩ := by
      unfold lxctoolsDomainSaveFlags
      simp only [hfl, hfind1, hcont, virFileExists_log, virFileIsDir_log, hex1, hdir1, hrun,
        hctl, hcriu, hname, hpath, hp1, Bool.not_true, Bool.false_eq_true, ↓reduceIte]
    refine ⟨_, i, vm, cont, hfind1, hcont, key, rfl, ?_, ?_, ?_, ?_⟩
    · simp [emitted]
    · intro _
      simp [emitted]
    · intro h0
      rw [hrun] at h0
      exact absurd h0 (by decide)
    · constructor
      · intro h0
        rw [hrun] at h0
        exact absurd h0 (by decide)
      · intro he
        exact absurd (hem2 _ _ he) (hnone _ _)
  · have hfind1 : virDomainObjListFindByUUID r1.world.driver.domains r1.domain.uuid
        = some (i, vm1) := by
      rw [hdoms, huuid]
      have := findObjFrom_set _ _ 0 i vm vm1 hfind (by simpa [hu1] using hpv)
      simpa using this
    have key : lxctoolsDomainSaveFlags env r1.world r1.domain to_ flags
        = Outcome.ret ⟨-1, r1.domain, ((r1.world.log (Event.lock i)).report
            virErrorNumber.VIR_ERR_OPERATION_DENIED).unlock i⟩ := by
      unfold lxctoolsDomainSaveFlags
      simp only [hfl, hfind1, hpd, virFileExists_log, virFileIsDir_log, hex1, hdir1,
        Bool.not_true, Bool.not_false, Bool.false_eq_true, ↓reduceIte]
    refine ⟨_, i, vm1, _, hfind1, hpd, key, rfl, ?_, ?_, ?_, ?_⟩
    · simp [emitted]
    · intro h0
      exact absurd h0 (by simp)
    · intro _
      simp [emitted]
    · exact ⟨fun _ => hem _ hmem, fun _ => rfl⟩

/-- C11 (the claim fails as stated): Save of the running "web1" to `/backups`
with flags 0 succeeds and creates `/backups/web1`; the identical call made
next fails at the running check with `VIR_ERR_OPERATION_DENIED` and never
reaches the "already a checkpoint present" check. -/
theorem save_twice_second_fails_not_running :
    lxctoolsDomainSaveFlags envOk srcWorld web1Handle "/backups" 0
      = Outcome.ret ⟨0, savedHandle, savedWorld⟩ ∧
    Event.mkdir "/backups/web1" 0 ∈ emitted srcWorld savedWorld ∧
    lxctoolsDomainSaveFlags envOk savedWorld savedHandle "/backups" 0
      = Outcome.ret ⟨-1, savedHandle,
          ⟨savedWorld.driver, savedWorld.fs,
           savedWorld.trace ++
             [Event.lock 0, Event.error virErrorNumber.VIR_ERR_OPERATION_DENIED,
              Event.unlock 0]⟩⟩ := by
  decide

/-- C11 (amended) at a concrete input: a Save of the running "web1" to
`/backups` with stop creates `/backups/web1` and then fails because the
facade checkpoint fails, so "web1" is still running; the identical call made
next fails with `VIR_ERR_INVALID_ARG` and no checkpoint. -/
theorem save_twice_collides_witness :
    ∃ r2 i vm2 c2,
      virDomainObjListFindByUUID failedSaveWorld.driver.domains web1Handle.uuid
        = some (i, vm2) ∧
      vm2.privateData = some c2 ∧
      lxctoolsDomainSaveFlags envNoCheckpoint failedSaveWorld web1Handle "/backups" 0
        = Outcome.ret r2 ∧
      r2.ret = -1 ∧
      (∀ j q s ok, Event.checkpoint j q s ok ∉ emitted failedSaveWorld r2.world) ∧
      (c2.is_running = true → emitted failedSaveWorld r2.world
        = [Event.lock i, Event.error virErrorNumber.VIR_ERR_INVALID_ARG, Event.unlock i]) ∧
      (c2.is_running = false → emitted failedSaveWorld r2.world
        = [Event.lock i, Event.error virErrorNumber.VIR_ERR_OPERATION_DENIED,
           Event.unlock i]) ∧
      (c2.is_running = false ↔
        Event.checkpoint i "/backups/web1" true true ∈ emitted srcWorld failedSaveWorld) :=
  save_twice_collides envNoCheckpoint srcWorld web1Handle "/backups" 0
    ⟨-1, web1Handle, failedSaveWorld⟩ "/backups/web1" (by decide) (by decide)

/-! ## Save preconditions -/

/-- C12 (code evaluated at the failing input): with the helper tool not on
PATH, Save of a registry object whose facade pointer is null to the existing
directory `/backups` does not return failure: having locked the object, it
faults on the null facade pointer at the running check, with no error
reported and the lock not released. -/
theorem save_null_facade_does_not_return :
    envNoCriu.criuExists = false ∧
    virDomainObjListFindByUUID brokenBackups.driver.domains web1Handle.uuid
      = some (0, web1NoFacade) ∧
    web1NoFacade.privateData = none ∧
    lxctoolsDomainSaveFlags envNoCriu brokenBackups web1Handle "/backups" 0
      = Outcome.fault ⟨brokenBackups.driver, brokenBackups.fs, [Event.lock 0]⟩ := by
  decide

/-- On every input on which Save does not meet a null facade pointer (the
container, when it is found and the target is an existing directory, has a
facade): if the container is not running, or may not be controlled, or the
helper tool is not on PATH, or the target is missing or not a directory, or
the checkpoint path already exists, Save returns -1 with no checkpoint call
and no `mkdir` logged, and with the file system, the driver state (every
container's state and id) and the caller's handle unchanged. -/
theorem save_preconditions_atomic (env : Env) (w : World) (domain : virDomain) (to_ : String)
    (flags : Nat)
    (hfacade : ∀ i vm, virDomainObjListFindByUUID w.driver.domains domain.uuid = some (i, vm) →
      virFileExists w to_ = true → virFileIsDir w to_ = true → vm.privateData ≠ none)
    (hcond :
      (∃ i vm cont, virDomainObjListFindByUUID w.driver.domains domain.uuid = some (i, vm) ∧
        vm.privateData = some cont ∧ (cont.is_running = false ∨ cont.may_control = false)) ∨
      env.criuExists = false ∨
      virFileExists w to_ = false ∨ virFileIsDir w to_ = false ∨
      (∃ p, env.concatPaths to_ domain.name = some p ∧ virFileExists w p = true)) :
    ∃ r, lxctoolsDomainSaveFlags env w domain to_ flags = Outcome.ret r ∧
      r.ret = -1 ∧
      (∀ j p s ok, Event.checkpoint j p s ok ∉ emitted w r.world) ∧
      (∀ p rc, Event.mkdir p rc ∉ emitted w r.world) ∧
      r.world.fs = w.fs ∧ r.world.driver = w.driver ∧ r.domain = domain := by
  unfold lxctoolsDomainSaveFlags
  dsimp only
  repeat' split
  all_goals first
    | (refine ⟨_, rfl, ?_⟩; simp [emitted]; done)
    | (exfalso; simp_all; done)
    | (exfalso
       simp_all
       obtain ⟨_, _, ⟨rfl, rfl⟩, x, hx, hor⟩ := hcond
       simp_all)

/-! ## Lock discipline -/

/-- The tail of Prepare appends events holding exactly one lock event, the
release. -/
theorem prepareStartServers_lock (env : Env) (w : World) (i : Nat) (cont : lxc_container)
    (addr : String) :
    ∃ evs, (prepareStartServers env w i cont addr).world.trace = w.trace ++ evs ∧
      lockEvents evs = [Event.unlock i] := by
  unfold prepareStartServers
  dsimp only
  repeat' split
  · exact ⟨[Event.unlock i], by simp, by simp [lockEvents, Event.isLock]⟩
  · exact ⟨[Event.unlock i], by simp, by simp [lockEvents, Event.isLock]⟩
  · exact ⟨_, by simp; rfl, by simp [lockEvents, Event.isLock]⟩
  · exact ⟨_, by simp; rfl, by simp [lockEvents, Event.isLock]⟩

/-- Entered right after the lookup has locked object `i`, the tail of Prepare
leaves the lock traffic of the call at one acquisition and one release. -/
theorem prepareStartServers_released (w0 : World) (env : Env) (w : World) (i : Nat)
    (cont : lxc_container) (addr : String) (hbase : w.trace = w0.trace ++ [Event.lock i]) :
    lockEvents (emitted w0 (prepareStartServers env w i cont addr).world)
      = [Event.lock i, Event.unlock i] := by
  obtain ⟨evs, htr, hl⟩ := prepareStartServers_lock env w i cont addr
  simp only [lockEvents] at hl
  simp [emitted, htr, hbase, lockEvents, Event.isLock, hl]

/-- Begin releases the lock of the object its lookup returned, once. -/
theorem begin_lock (env : Env) (w : World) (domain : virDomain) (params : virTypedParameters)
    (flags : Nat) (i : Nat) (vm : virDomainObj)
    (hflags : virCheckFlags 0 flags = false) (hvalid : params.valid = true)
    (hfind : virDomainObjListFindByUUID w.driver.domains domain.uuid = some (i, vm)) :
    ∃ r, lxctoolsDomainMigrateBegin3Params env w domain params flags = Outcome.ret r ∧
      lockEvents (emitted w r.2) = [Event.lock i, Event.unlock i] := by
  unfold lxctoolsDomainMigrateBegin3Params
  simp only [hflags, hvalid, hfind, Bool.not_true, Bool.false_eq_true, ↓reduceIte]
  split
  · exact ⟨_, rfl, by simp [emitted, lockEvents, Event.isLock]⟩
  · exact ⟨_, rfl, by simp [emitted, lockEvents, Event.isLock]⟩

/-- Prepare releases the lock of the object its lookup returned, once. -/
theorem prepare_lock (env : Env) (w : World) (params : virTypedParameters)
    (flags : Nat) (i : Nat) (vm : virDomainObj)
    (hflags : virCheckFlags 0 flags = false) (hvalid : params.valid = true)
    (hd : ¬ (virTypedParamsGetString params.dest_name none).1 < 0)
    (hu : ¬ (virTypedParamsGetString params.uri none).1 < 0)
    (hfind : virDomainObjListFindByName w.driver.domains
      (virTypedParamsGetString params.dest_name none).2 = some (i, vm)) :
    lockEvents (emitted w (lxctoolsDomainMigratePrepare3Params env w params flags).world)
      = [Event.lock i, Event.unlock i] := by
  unfold lxctoolsDomainMigratePrepare3Params
  simp only [hflags, hvalid, hd, hu, World.setMd_domains, hfind, Bool.not_true,
    Bool.false_eq_true, ↓reduceIte]
  repeat' split
  all_goals first
    | exact prepareStartServers_released w env _ _ _ _ rfl
    | simp [emitted, lockEvents, Event.isLock]

/-- Perform releases the lock of the object its lookup returned, once. -/
theorem perform_lock (env : Env) (w : World) (domain : virDomain)
    (params : virTypedParameters) (flags : Nat) (i : Nat) (vm : virDomainObj)
    (hflags : virCheckFlags 0 flags = false) (hvalid : params.valid = true)
    (hu : ¬ (virTypedParamsGetString params.uri none).1 < 0)
    (hfind : virDomainObjListFindByUUID w.driver.domains domain.uuid = some (i, vm)) :
    ∃ r, lxctoolsDomainMigratePerform3Params env w domain params flags = Outcome.ret r ∧
      lockEvents (emitted w r.2) = [Event.lock i, Event.unlock i] := by
  unfold lxctoolsDomainMigratePerform3Params
  simp only [hflags, hvalid, hu, hfind, Bool.not_true, Bool.false_eq_true, ↓reduceIte]
  repeat' split
  all_goals exact ⟨_, rfl, by simp [emitted, lockEvents, Event.isLock]⟩

/-- Finish releases the lock of the object its lookup returned, once. -/
theorem finish_lock (env : Env) (w : World) (params : virTypedParameters)
    (flags : Nat) (cancelled : Int) (dname : String) (i : Nat) (vm : virDomainObj)
    (hflags : virCheckFlags 0 flags = false) (hvalid : params.valid = true)
    (hname : params.dest_name = ParamGet.value dname)
    (hfind : virDomainObjListFindByName w.driver.domains (some dname) = some (i, vm)) :
    ∃ r, lxctoolsDomainMigrateFinish3Params env w params flags cancelled = Outcome.ret r ∧
      lockEvents (emitted w r.2) = [Event.lock i, Event.unlock i] := by
  unfold lxctoolsDomainMigrateFinish3Params
  simp only [hflags, hvalid, hname, virTypedParamsGetString_value, hfind, Bool.not_true,
    Bool.false_eq_true, ↓reduceIte]
  repeat' split
  all_goals first
    | (exfalso; omega)
    | exact ⟨_, rfl, by simp [emitted, lockEvents, Event.isLock]⟩

/-- Confirm releases the lock of the object its lookup returned, once. -/
theorem confirm_lock (env : Env) (w : World) (params : virTypedParameters)
    (flags : Nat) (cancelled : Int) (dname : String) (i : Nat) (vm : virDomainObj)
    (hflags : virCheckFlags 0 flags = false) (hvalid : params.valid = true)
    (hname : params.dest_name = ParamGet.value dname)
    (hfind : virDomainObjListFindByName w.driver.domains (some dname) = some (i, vm)) :
    ∃ r, lxctoolsDomainMigrateConfirm3Params env w params flags cancelled = Outcome.ret r ∧
      lockEvents (emitted w r.2) = [Event.lock i, Event.unlock i] := by
  unfold lxctoolsDomainMigrateConfirm3Params
  simp only [hflags, hvalid, hname, virTypedParamsGetString_value, hfind, Bool.not_true,
    Bool.false_eq_true, ↓reduceIte]
  repeat' split
  all_goals first
    | (exfalso; omega)
    | exact ⟨_, rfl, by simp [emitted, lockEvents, Event.isLock]⟩

/-- Entered right after the lookup has locked object `i`, the checkpoint step of
Save leaves the lock traffic of the call at one acquisition and one release. -/
theorem saveCheckpoint_released (w0 : World) (env : Env) (w : World) (domain : virDomain)
    (flags : Nat) (i : Nat) (vm : virDomainObj) (cont : lxc_container) (sp : String)
    (hbase : w.trace = w0.trace ++ [Event.lock i]) :
    lockEvents (emitted w0 (saveCheckpoint env w domain flags i vm cont sp).world)
      = [Event.lock i, Event.unlock i] := by
  obtain ⟨rest, htr, _, hl, _⟩ := saveCheckpoint_spec env w domain flags i vm cont sp
  simp only [lockEvents] at hl
  simp [emitted, htr, hbase, lockEvents, Event.isLock, hl]

/-- Save releases the lock of the object its lookup returned, once, when that
object carries a facade. -/
theorem save_lock (env : Env) (w : World) (domain : virDomain) (to_ : String)
    (flags : Nat) (i : Nat) (vm : virDomainObj)
    (hflags : virCheckFlags (VIR_DOMAIN_SAVE_RUNNING ||| VIR_DOMAIN_SAVE_PAUSED) flags = false)
    (hfind : virDomainObjListFindByUUID w.driver.domains domain.uuid = some (i, vm))
    (hcont : vm.privateData ≠ none) :
    ∃ r, lxctoolsDomainSaveFlags env w domain to_ flags = Outcome.ret r ∧
      lockEvents (emitted w r.world) = [Event.lock i, Event.unlock i] := by
  obtain ⟨cont, hc⟩ := Option.ne_none_iff_exists'.mp hcont
  unfold lxctoolsDomainSaveFlags
  simp only [hflags, hfind, hc, Bool.false_eq_true, ↓reduceIte]
  repeat' split
  all_goals first
    | exact ⟨_, rfl, saveCheckpoint_released w env _ _ _ _ _ _ _ rfl⟩
    | exact ⟨_, rfl, by simp [emitted, lockEvents, Event.isLock]⟩

/-- Restore releases the lock of the object its lookup returned, once. -/
theorem restore_lock (env : Env) (w : World) (from_ name : String) (flags : Nat)
    (i : Nat) (vm : virDomainObj)
    (hflags : virCheckFlags 0 flags = false)
    (hname : env.getContainerNameFromPath from_ = some name)
    (hfind : virDomainObjListFindByName w.driver.domains (some name) = some (i, vm)) :
    lockEvents (emitted w (lxctoolsDomainRestoreFlags env w from_ flags).2)
      = [Event.lock i, Event.unlock i] := by
  unfold lxctoolsDomainRestoreFlags
  simp only [hflags, hname, hfind, Bool.false_eq_true, ↓reduceIte]
  repeat' split
  all_goals simp [emitted, lockEvents, Event.isLock]

/-- Shutdown releases the lock of the object its lookup returned, once, when
that object carries a facade. -/
theorem shutdown_lock (env : Env) (w : World) (dom : virDomain) (flags : Nat)
    (i : Nat) (vm : virDomainObj)
    (hflags : virCheckFlags 0 flags = false)
    (hfind : virDomainObjListFindByName w.driver.domains (some dom.name) = some (i, vm))
    (hcont : vm.privateData ≠ none) :
    ∃ r, lxctoolsDomainShutdownFlags env w dom flags = Outcome.ret r ∧
      lockEvents (emitted w r.world) = [Event.lock i, Event.unlock i] := by
  obtain ⟨cont, hc⟩ := Option.ne_none_iff_exists'.mp hcont
  unfold lxctoolsDomainShutdownFlags
  simp only [hflags, hfind, hc, Bool.false_eq_true, ↓reduceIte]
  repeat' split
  all_goals exact ⟨_, rfl, by simp [emitted, lockEvents, Event.isLock]⟩

/-- Create releases the lock of the object its lookup returned, once, when that
object carries a facade. -/
theorem create_lock (env : Env) (w : World) (dom : virDomain) (flags : Nat)
    (i : Nat) (vm : virDomainObj)
    (hflags : virCheckFlags 0 flags = false)
    (hfind : virDomainObjListFindByName w.driver.domains (some dom.name) = some (i, vm))
    (hcont : vm.privateData ≠ none) :
    ∃ r, lxctoolsDomainCreateWithFlags env w dom flags = Outcome.ret r ∧
      lockEvents (emitted w r.world) = [Event.lock i, Event.unlock i] := by
  obtain ⟨cont, hc⟩ := Option.ne_none_iff_exists'.mp hcont
  unfold lxctoolsDomainCreateWithFlags
  simp only [hflags, hfind, hc, Bool.false_eq_true, ↓reduceIte]
  repeat' split
  all_goals exact ⟨_, rfl, by simp [emitted, lockEvents, Event.isLock]⟩

/-- GetInfo releases the lock of the object its lookup returned, once, when
that object carries a facade. -/
theorem getinfo_lock (env : Env) (w : World) (dom : virDomain) (info : virDomainInfo)
    (i : Nat) (vm : virDomainObj)
    (hfind : virDomainObjListFindByName w.driver.domains (some dom.name) = some (i, vm))
    (hcont : vm.privateData ≠ none) :
    ∃ r, lxctoolsDomainGetInfo env w dom info = Outcome.ret r ∧
      lockEvents (emitted w r.world) = [Event.lock i, Event.unlock i] := by
  obtain ⟨cont, hc⟩ := Option.ne_none_iff_exists'.mp hcont
  unfold lxctoolsDomainGetInfo
  simp only [hfind, hc]
  repeat' split
  all_goals exact ⟨_, rfl, by simp [emitted, lockEvents, Event.isLock]⟩

/-- Lock discipline on the lock traffic of a call.  For each of Begin,
Prepare, Perform, Finish, Confirm, Save, Restore, Shutdown, Create and
GetInfo, and every input for which the operation's lookup returns a registry
object `i` (for Save, Shutdown, Create and GetInfo: one that carries a
facade), the operation returns and the lock events of the call are exactly
the acquisition of `i` by the lookup followed by one release of `i`, on the
success path and on every failure path. -/
theorem lock_released_once (env : Env) (w : World) (domain dom : virDomain)
    (params : virTypedParameters) (flags : Nat) (cancelled : Int)
    (to_ from_ name dname : String) (info : virDomainInfo) (i : Nat) (vm : virDomainObj) :
    (virCheckFlags 0 flags = false → params.valid = true →
      virDomainObjListFindByUUID w.driver.domains domain.uuid = some (i, vm) →
      ∃ r, lxctoolsDomainMigrateBegin3Params env w domain params flags = Outcome.ret r ∧
        lockEvents (emitted w r.2) = [Event.lock i, Event.unlock i]) ∧
    (virCheckFlags 0 flags = false → params.valid = true →
      ¬ (virTypedParamsGetString params.dest_name none).1 < 0 →
      ¬ (virTypedParamsGetString params.uri none).1 < 0 →
      virDomainObjListFindByName w.driver.domains
        (virTypedParamsGetString params.dest_name none).2 = some (i, vm) →
      lockEvents (emitted w (lxctoolsDomainMigratePrepare3Params env w params flags).world)
        = [Event.lock i, Event.unlock i]) ∧
    (virCheckFlags 0 flags = false → params.valid = true →
      ¬ (virTypedParamsGetString params.uri none).1 < 0 →
      virDomainObjListFindByUUID w.driver.domains domain.uuid = some (i, vm) →
      ∃ r, lxctoolsDomainMigratePerform3Params env w domain params flags = Outcome.ret r ∧
        lockEvents (emitted w r.2) = [Event.lock i, Event.unlock i]) ∧
    (virCheckFlags 0 flags = false → params.valid = true →
      params.dest_name = ParamGet.value dname →
      virDomainObjListFindByName w.driver.domains (some dname) = some (i, vm) →
      ∃ r, lxctoolsDomainMigrateFinish3Params env w params flags cancelled = Outcome.ret r ∧
        lockEvents (emitted w r.2) = [Event.lock i, Event.unlock i]) ∧
    (virCheckFlags 0 flags = false → params.valid = true →
      params.dest_name = ParamGet.value dname →
      virDomainObjListFindByName w.driver.domains (some dname) = some (i, vm) →
      ∃ r, lxctoolsDomainMigrateConfirm3Params env w params flags cancelled = Outcome.ret r ∧
        lockEvents (emitted w r.2) = [Event.lock i, Event.unlock i]) ∧
    (virCheckFlags (VIR_DOMAIN_SAVE_RUNNING ||| VIR_DOMAIN_SAVE_PAUSED) flags = false →
      virDomainObjListFindByUUID w.driver.domains domain.uuid = some (i, vm) →
      vm.privateData ≠ none →
      ∃ r, lxctoolsDomainSaveFlags env w domain to_ flags = Outcome.ret r ∧
        lockEvents (emitted w r.world) = [Event.lock i, Event.unlock i]) ∧
    (virCheckFlags 0 flags = false → env.getContainerNameFromPath from_ = some name →
      virDomainObjListFindByName w.driver.domains (some name) = some (i, vm) →
      lockEvents (emitted w (lxctoolsDomainRestoreFlags env w from_ flags).2)
        = [Event.lock i, Event.unlock i]) ∧
    (virCheckFlags 0 flags = false →
      virDomainObjListFindByName w.driver.domains (some dom.name) = some (i, vm) →
      vm.privateData ≠ none →
      ∃ r, lxctoolsDomainShutdownFlags env w dom flags = Outcome.ret r ∧
        lockEvents (emitted w r.world) = [Event.lock i, Event.unlock i]) ∧
    (virCheckFlags 0 flags = false →
      virDomainObjListFindByName w.driver.domains (some dom.name) = some (i, vm) →
      vm.privateData ≠ none →
      ∃ r, lxctoolsDomainCreateWithFlags env w dom flags = Outcome.ret r ∧
        lockEvents (emitted w r.world) = [Event.lock i, Event.unlock i]) ∧
    (virDomainObjListFindByName w.driver.domains (some dom.name) = some (i, vm) →
      vm.privateData ≠ none →
      ∃ r, lxctoolsDomainGetInfo env w dom info = Outcome.ret r ∧
        lockEvents (emitted w r.world) = [Event.lock i, Event.unlock i]) :=
  ⟨begin_lock env w domain params flags i vm,
   prepare_lock env w params flags i vm,
   perform_lock env w domain params flags i vm,
   finish_lock env w params flags cancelled dname i vm,
   confirm_lock env w params flags cancelled dname i vm,
   save_lock env w domain to_ flags i vm,
   restore_lock env w from_ name flags i vm,
   shutdown_lock env w dom flags i vm,
   create_lock env w dom flags i vm,
   getinfo_lock env w dom info i vm⟩

/-- Shutdown, Create, GetInfo and Save on a registry object whose facade
pointer is null (for Save: once the target is an existing directory) fault
right after the lookup has locked the object: the world at the fault is the
world before the call with that one acquisition logged, and no release. -/
theorem null_facade_faults_holding_lock (env : Env) (w : World) (domain dom : virDomain)
    (flags : Nat) (to_ : String) (info : virDomainInfo) (i : Nat) (vm : virDomainObj)
    (hnull : vm.privateData = none) :
    (virCheckFlags 0 flags = false →
      virDomainObjListFindByName w.driver.domains (some dom.name) = some (i, vm) →
      lxctoolsDomainShutdownFlags env w dom flags = Outcome.fault (w.log (Event.lock i)) ∧
      lxctoolsDomainCreateWithFlags env w dom flags = Outcome.fault (w.log (Event.lock i))) ∧
    (virDomainObjListFindByName w.driver.domains (some dom.name) = some (i, vm) →
      lxctoolsDomainGetInfo env w dom info = Outcome.fault (w.log (Event.lock i))) ∧
    (virCheckFlags (VIR_DOMAIN_SAVE_RUNNING ||| VIR_DOMAIN_SAVE_PAUSED) flags = false →
      virDomainObjListFindByUUID w.driver.domains domain.uuid = some (i, vm) →
      virFileExists w to_ = true → virFileIsDir w to_ = true →
      lxctoolsDomainSaveFlags env w domain to_ flags = Outcome.fault (w.log (Event.lock i))) ∧
    lockEvents (emitted w (w.log (Event.lock i))) = [Event.lock i] := by
  refine ⟨?_, ?_, ?_, ?_⟩
  · intro hflags hfind
    unfold lxctoolsDomainShutdownFlags lxctoolsDomainCreateWithFlags
    simp [hflags, hfind, hnull]
  · intro hfind
    unfold lxctoolsDomainGetInfo
    simp [hfind, hnull]
  · intro hflags hfind hex hdir
    unfold lxctoolsDomainSaveFlags
    simp [hflags, hfind, hnull, hex, hdir]
  · simp [emitted, lockEvents, Event.isLock]

/-- C16 (code evaluated at the failing input): on a host whose registry holds
"web1" with a null facade pointer, the lookups by name and by UUID return
that object, and Shutdown, Create, GetInfo and Save each fault on the null
facade pointer right after the lookup has locked the object: at the fault
the lock traffic of the call is the acquisition of object 0 alone, so the
lock is never released. -/
theorem null_facade_lock_not_released :
    virDomainObjListFindByName brokenBackups.driver.domains (some web1Handle.name)
      = some (0, web1NoFacade) ∧
    virDomainObjListFindByUUID brokenBackups.driver.domains web1Handle.uuid
      = some (0, web1NoFacade) ∧
    web1NoFacade.privateData = none ∧
    lxctoolsDomainShutdownFlags envOk brokenBackups web1Handle 0
      = Outcome.fault ⟨brokenBackups.driver, brokenBackups.fs, [Event.lock 0]⟩ ∧
    lxctoolsDomainCreateWithFlags envOk brokenBackups web1Handle 0
      = Outcome.fault ⟨brokenBackups.driver, brokenBackups.fs, [Event.lock 0]⟩ ∧
    lxctoolsDomainGetInfo envOk brokenBackups web1Handle info0
      = Outcome.fault ⟨brokenBackups.driver, brokenBackups.fs, [Event.lock 0]⟩ ∧
    lxctoolsDomainSaveFlags envOk brokenBackups web1Handle "/backups" 0
      = Outcome.fault ⟨brokenBackups.driver, brokenBackups.fs, [Event.lock 0]⟩ ∧
    lockEvents (emitted brokenBackups ⟨brokenBackups.driver, brokenBackups.fs, [Event.lock 0]⟩)
      = [Event.lock 0] := by
  decide

end Lxctools
